import Mathlib

/-!
Formal model of the photo organizer `rename_and_move_files.py`.

The Python program batch-renames image files after their capture timestamp
and moves them into per-date folders.  This file gives a shallow embedding
of its core components — timestamp validation, exiftool output parsing,
file discovery, move planning, unique-filename allocation, path safety
validation, the move executor and the exit-status logic of `main` — as
executable Lean definitions, together with theorems settling the spec
claims about them.

Modelling conventions:
* Filesystem paths are lists of components (`List String`); a filesystem
  is a list of regular-file paths plus a list of directory paths.
* Machine-independent Python string operations are re-implemented on
  `List Char` (`str.split`, `str.strip`, `str.lower`, `os.path.splitext`,
  `str.rfind`) so that every definition evaluates inside the kernel.
* External effects (exiftool output, `stat` modification times, OS errors
  of `os.rename`/`shutil.move`) enter as explicit parameters.
* Python `list.sort(key=...)` is a stable sort by key; the embedding uses
  `List.insertionSort`, which has the same observable behaviour (stable,
  sorted output, permutation of the input).
-/

namespace CanonImages

/-! ### Python string primitives used by the script -/

/-- Decode a list of decimal digit characters back into the number they
denote (most significant digit first).  Inverse of `Nat.repr`, used to
prove the decimal rendering of the duplicate counter injective. -/
def decDigits (l : List Char) : Nat :=
  l.foldl (fun a c => 10 * a + (c.toNat - 48)) 0

/-- Model of Python `str.lower` restricted to the ASCII range, which is
exact for this program: `.lower()` is applied only to extension strings
compared against the ASCII extension sets, and no character outside ASCII
lower-cases into those sets. -/
def pyLowerChar (c : Char) : Char :=
  if 'A' ≤ c ∧ c ≤ 'Z' then Char.ofNat (c.toNat + 32) else c

/-- Lower-casing of a whole string, character by character. -/
def pyLower (s : String) : String := ⟨s.data.map pyLowerChar⟩

/-- Code-point ranges matched by the regex class `\d` in a Python `str`
pattern compiled without `re.ASCII`: every Unicode decimal digit
(general category Nd), as tabulated by CPython 3.11 / Unicode 14.0. -/
def pyDigitRanges : List (Nat × Nat) :=
  [(0x30, 0x39), (0x660, 0x669), (0x6F0, 0x6F9), (0x7C0, 0x7C9), (0x966, 0x96F),
   (0x9E6, 0x9EF), (0xA66, 0xA6F), (0xAE6, 0xAEF), (0xB66, 0xB6F), (0xBE6, 0xBEF),
   (0xC66, 0xC6F), (0xCE6, 0xCEF), (0xD66, 0xD6F), (0xDE6, 0xDEF), (0xE50, 0xE59),
   (0xED0, 0xED9), (0xF20, 0xF29), (0x1040, 0x1049), (0x1090, 0x1099), (0x17E0, 0x17E9),
   (0x1810, 0x1819), (0x1946, 0x194F), (0x19D0, 0x19D9), (0x1A80, 0x1A89), (0x1A90, 0x1A99),
   (0x1B50, 0x1B59), (0x1BB0, 0x1BB9), (0x1C40, 0x1C49), (0x1C50, 0x1C59), (0xA620, 0xA629),
   (0xA8D0, 0xA8D9), (0xA900, 0xA909), (0xA9D0, 0xA9D9), (0xA9F0, 0xA9F9), (0xAA50, 0xAA59),
   (0xABF0, 0xABF9), (0xFF10, 0xFF19), (0x104A0, 0x104A9), (0x10D30, 0x10D39), (0x11066, 0x1106F),
   (0x110F0, 0x110F9), (0x11136, 0x1113F), (0x111D0, 0x111D9), (0x112F0, 0x112F9), (0x11450, 0x11459),
   (0x114D0, 0x114D9), (0x11650, 0x11659), (0x116C0, 0x116C9), (0x11730, 0x11739), (0x118E0, 0x118E9),
   (0x11950, 0x11959), (0x11C50, 0x11C59), (0x11D50, 0x11D59), (0x11DA0, 0x11DA9), (0x16A60, 0x16A69),
   (0x16AC0, 0x16AC9), (0x16B50, 0x16B59), (0x1D7CE, 0x1D7FF), (0x1E140, 0x1E149), (0x1E2F0, 0x1E2F9),
   (0x1E950, 0x1E959), (0x1FBF0, 0x1FBF9)]

/-- Test for membership in one of the `\d` ranges. -/
def isPyDigit (c : Char) : Bool :=
  pyDigitRanges.any (fun r => decide (r.1 ≤ c.toNat) && decide (c.toNat ≤ r.2))

set_option maxHeartbeats 2000000 in
/-- Full case-folding map of Python `str.casefold`: every code point whose
casefold differs from itself, paired with the code points it folds to
(CPython 3.11 / Unicode 14.0); all other code points fold to themselves. -/
def caseFoldTable : List (Nat × List Nat) :=
  [(0x41, [0x61]), (0x42, [0x62]), (0x43, [0x63]), (0x44, [0x64]),
   (0x45, [0x65]), (0x46, [0x66]), (0x47, [0x67]), (0x48, [0x68]),
   (0x49, [0x69]), (0x4A, [0x6A]), (0x4B, [0x6B]), (0x4C, [0x6C]),
   (0x4D, [0x6D]), (0x4E, [0x6E]), (0x4F, [0x6F]), (0x50, [0x70]),
   (0x51, [0x71]), (0x52, [0x72]), (0x53, [0x73]), (0x54, [0x74]),
   (0x55, [0x75]), (0x56, [0x76]), (0x57, [0x77]), (0x58, [0x78]),
   (0x59, [0x79]), (0x5A, [0x7A]), (0xB5, [0x3BC]), (0xC0, [0xE0]),
   (0xC1, [0xE1]), (0xC2, [0xE2]), (0xC3, [0xE3]), (0xC4, [0xE4]),
   (0xC5, [0xE5]), (0xC6, [0xE6]), (0xC7, [0xE7]), (0xC8, [0xE8]),
   (0xC9, [0xE9]), (0xCA, [0xEA]), (0xCB, [0xEB]), (0xCC, [0xEC]),
   (0xCD, [0xED]), (0xCE, [0xEE]), (0xCF, [0xEF]), (0xD0, [0xF0]),
   (0xD1, [0xF1]), (0xD2, [0xF2]), (0xD3, [0xF3]), (0xD4, [0xF4]),
   (0xD5, [0xF5]), (0xD6, [0xF6]), (0xD8, [0xF8]), (0xD9, [0xF9]),
   (0xDA, [0xFA]), (0xDB, [0xFB]), (0xDC, [0xFC]), (0xDD, [0xFD]),
   (0xDE, [0xFE]), (0xDF, [0x73, 0x73]), (0x100, [0x101]), (0x102, [0x103]),
   (0x104, [0x105]), (0x106, [0x107]), (0x108, [0x109]), (0x10A, [0x10B]),
   (0x10C, [0x10D]), (0x10E, [0x10F]), (0x110, [0x111]), (0x112, [0x113]),
   (0x114, [0x115]), (0x116, [0x117]), (0x118, [0x119]), (0x11A, [0x11B]),
   (0x11C, [0x11D]), (0x11E, [0x11F]), (0x120, [0x121]), (0x122, [0x123]),
   (0x124, [0x125]), (0x126, [0x127]), (0x128, [0x129]), (0x12A, [0x12B]),
   (0x12C, [0x12D]), (0x12E, [0x12F]), (0x130, [0x69, 0x307]), (0x132, [0x133]),
   (0x134, [0x135]), (0x136, [0x137]), (0x139, [0x13A]), (0x13B, [0x13C]),
   (0x13D, [0x13E]), (0x13F, [0x140]), (0x141, [0x142]), (0x143, [0x144]),
   (0x145, [0x146]), (0x147, [0x148]), (0x149, [0x2BC, 0x6E]), (0x14A, [0x14B]),
   (0x14C, [0x14D]), (0x14E, [0x14F]), (0x150, [0x151]), (0x152, [0x153]),
   (0x154, [0x155]), (0x156, [0x157]), (0x158, [0x159]), (0x15A, [0x15B]),
   (0x15C, [0x15D]), (0x15E, [0x15F]), (0x160, [0x161]), (0x162, [0x163]),
   (0x164, [0x165]), (0x166, [0x167]), (0x168, [0x169]), (0x16A, [0x16B]),
   (0x16C, [0x16D]), (0x16E, [0x16F]), (0x170, [0x171]), (0x172, [0x173]),
   (0x174, [0x175]), (0x176, [0x177]), (0x178, [0xFF]), (0x179, [0x17A]),
   (0x17B, [0x17C]), (0x17D, [0x17E]), (0x17F, [0x73]), (0x181, [0x253]),
   (0x182, [0x183]), (0x184, [0x185]), (0x186, [0x254]), (0x187, [0x188]),
   (0x189, [0x256]), (0x18A, [0x257]), (0x18B, [0x18C]), (0x18E, [0x1DD]),
   (0x18F, [0x259]), (0x190, [0x25B]), (0x191, [0x192]), (0x193, [0x260]),
   (0x194, [0x263]), (0x196, [0x269]), (0x197, [0x268]), (0x198, [0x199]),
   (0x19C, [0x26F]), (0x19D, [0x272]), (0x19F, [0x275]), (0x1A0, [0x1A1]),
   (0x1A2, [0x1A3]), (0x1A4, [0x1A5]), (0x1A6, [0x280]), (0x1A7, [0x1A8]),
   (0x1A9, [0x283]), (0x1AC, [0x1AD]), (0x1AE, [0x288]), (0x1AF, [0x1B0]),
   (0x1B1, [0x28A]), (0x1B2, [0x28B]), (0x1B3, [0x1B4]), (0x1B5, [0x1B6]),
   (0x1B7, [0x292]), (0x1B8, [0x1B9]), (0x1BC, [0x1BD]), (0x1C4, [0x1C6]),
   (0x1C5, [0x1C6]), (0x1C7, [0x1C9]), (0x1C8, [0x1C9]), (0x1CA, [0x1CC]),
   (0x1CB, [0x1CC]), (0x1CD, [0x1CE]), (0x1CF, [0x1D0]), (0x1D1, [0x1D2]),
   (0x1D3, [0x1D4]), (0x1D5, [0x1D6]), (0x1D7, [0x1D8]), (0x1D9, [0x1DA]),
   (0x1DB, [0x1DC]), (0x1DE, [0x1DF]), (0x1E0, [0x1E1]), (0x1E2, [0x1E3]),
   (0x1E4, [0x1E5]), (0x1E6, [0x1E7]), (0x1E8, [0x1E9]), (0x1EA, [0x1EB]),
   (0x1EC, [0x1ED]), (0x1EE, [0x1EF]), (0x1F0, [0x6A, 0x30C]), (0x1F1, [0x1F3]),
   (0x1F2, [0x1F3]), (0x1F4, [0x1F5]), (0x1F6, [0x195]), (0x1F7, [0x1BF]),
   (0x1F8, [0x1F9]), (0x1FA, [0x1FB]), (0x1FC, [0x1FD]), (0x1FE, [0x1FF]),
   (0x200, [0x201]), (0x202, [0x203]), (0x204, [0x205]), (0x206, [0x207]),
   (0x208, [0x209]), (0x20A, [0x20B]), (0x20C, [0x20D]), (0x20E, [0x20F]),
   (0x210, [0x211]), (0x212, [0x213]), (0x214, [0x215]), (0x216, [0x217]),
   (0x218, [0x219]), (0x21A, [0x21B]), (0x21C, [0x21D]), (0x21E, [0x21F]),
   (0x220, [0x19E]), (0x222, [0x223]), (0x224, [0x225]), (0x226, [0x227]),
   (0x228, [0x229]), (0x22A, [0x22B]), (0x22C, [0x22D]), (0x22E, [0x22F]),
   (0x230, [0x231]), (0x232, [0x233]), (0x23A, [0x2C65]), (0x23B, [0x23C]),
   (0x23D, [0x19A]), (0x23E, [0x2C66]), (0x241, [0x242]), (0x243, [0x180]),
   (0x244, [0x289]), (0x245, [0x28C]), (0x246, [0x247]), (0x248, [0x249]),
   (0x24A, [0x24B]), (0x24C, [0x24D]), (0x24E, [0x24F]), (0x345, [0x3B9]),
   (0x370, [0x371]), (0x372, [0x373]), (0x376, [0x377]), (0x37F, [0x3F3]),
   (0x386, [0x3AC]), (0x388, [0x3AD]), (0x389, [0x3AE]), (0x38A, [0x3AF]),
   (0x38C, [0x3CC]), (0x38E, [0x3CD]), (0x38F, [0x3CE]), (0x390, [0x3B9, 0x308, 0x301]),
   (0x391, [0x3B1]), (0x392, [0x3B2]), (0x393, [0x3B3]), (0x394, [0x3B4]),
   (0x395, [0x3B5]), (0x396, [0x3B6]), (0x397, [0x3B7]), (0x398, [0x3B8]),
   (0x399, [0x3B9]), (0x39A, [0x3BA]), (0x39B, [0x3BB]), (0x39C, [0x3BC]),
   (0x39D, [0x3BD]), (0x39E, [0x3BE]), (0x39F, [0x3BF]), (0x3A0, [0x3C0]),
   (0x3A1, [0x3C1]), (0x3A3, [0x3C3]), (0x3A4, [0x3C4]), (0x3A5, [0x3C5]),
   (0x3A6, [0x3C6]), (0x3A7, [0x3C7]), (0x3A8, [0x3C8]), (0x3A9, [0x3C9]),
   (0x3AA, [0x3CA]), (0x3AB, [0x3CB]), (0x3B0, [0x3C5, 0x308, 0x301]), (0x3C2, [0x3C3]),
   (0x3CF, [0x3D7]), (0x3D0, [0x3B2]), (0x3D1, [0x3B8]), (0x3D5, [0x3C6]),
   (0x3D6, [0x3C0]), (0x3D8, [0x3D9]), (0x3DA, [0x3DB]), (0x3DC, [0x3DD]),
   (0x3DE, [0x3DF]), (0x3E0, [0x3E1]), (0x3E2, [0x3E3]), (0x3E4, [0x3E5]),
   (0x3E6, [0x3E7]), (0x3E8, [0x3E9]), (0x3EA, [0x3EB]), (0x3EC, [0x3ED]),
   (0x3EE, [0x3EF]), (0x3F0, [0x3BA]), (0x3F1, [0x3C1]), (0x3F4, [0x3B8]),
   (0x3F5, [0x3B5]), (0x3F7, [0x3F8]), (0x3F9, [0x3F2]), (0x3FA, [0x3FB]),
   (0x3FD, [0x37B]), (0x3FE, [0x37C]), (0x3FF, [0x37D]), (0x400, [0x450]),
   (0x401, [0x451]), (0x402, [0x452]), (0x403, [0x453]), (0x404, [0x454]),
   (0x405, [0x455]), (0x406, [0x456]), (0x407, [0x457]), (0x408, [0x458]),
   (0x409, [0x459]), (0x40A, [0x45A]), (0x40B, [0x45B]), (0x40C, [0x45C]),
   (0x40D, [0x45D]), (0x40E, [0x45E]), (0x40F, [0x45F]), (0x410, [0x430]),
   (0x411, [0x431]), (0x412, [0x432]), (0x413, [0x433]), (0x414, [0x434]),
   (0x415, [0x435]), (0x416, [0x436]), (0x417, [0x437]), (0x418, [0x438]),
   (0x419, [0x439]), (0x41A, [0x43A]), (0x41B, [0x43B]), (0x41C, [0x43C]),
   (0x41D, [0x43D]), (0x41E, [0x43E]), (0x41F, [0x43F]), (0x420, [0x440]),
   (0x421, [0x441]), (0x422, [0x442]), (0x423, [0x443]), (0x424, [0x444]),
   (0x425, [0x445]), (0x426, [0x446]), (0x427, [0x447]), (0x428, [0x448]),
   (0x429, [0x449]), (0x42A, [0x44A]), (0x42B, [0x44B]), (0x42C, [0x44C]),
   (0x42D, [0x44D]), (0x42E, [0x44E]), (0x42F, [0x44F]), (0x460, [0x461]),
   (0x462, [0x463]), (0x464, [0x465]), (0x466, [0x467]), (0x468, [0x469]),
   (0x46A, [0x46B]), (0x46C, [0x46D]), (0x46E, [0x46F]), (0x470, [0x471]),
   (0x472, [0x473]), (0x474, [0x475]), (0x476, [0x477]), (0x478, [0x479]),
   (0x47A, [0x47B]), (0x47C, [0x47D]), (0x47E, [0x47F]), (0x480, [0x481]),
   (0x48A, [0x48B]), (0x48C, [0x48D]), (0x48E, [0x48F]), (0x490, [0x491]),
   (0x492, [0x493]), (0x494, [0x495]), (0x496, [0x497]), (0x498, [0x499]),
   (0x49A, [0x49B]), (0x49C, [0x49D]), (0x49E, [0x49F]), (0x4A0, [0x4A1]),
   (0x4A2, [0x4A3]), (0x4A4, [0x4A5]), (0x4A6, [0x4A7]), (0x4A8, [0x4A9]),
   (0x4AA, [0x4AB]), (0x4AC, [0x4AD]), (0x4AE, [0x4AF]), (0x4B0, [0x4B1]),
   (0x4B2, [0x4B3]), (0x4B4, [0x4B5]), (0x4B6, [0x4B7]), (0x4B8, [0x4B9]),
   (0x4BA, [0x4BB]), (0x4BC, [0x4BD]), (0x4BE, [0x4BF]), (0x4C0, [0x4CF]),
   (0x4C1, [0x4C2]), (0x4C3, [0x4C4]), (0x4C5, [0x4C6]), (0x4C7, [0x4C8]),
   (0x4C9, [0x4CA]), (0x4CB, [0x4CC]), (0x4CD, [0x4CE]), (0x4D0, [0x4D1]),
   (0x4D2, [0x4D3]), (0x4D4, [0x4D5]), (0x4D6, [0x4D7]), (0x4D8, [0x4D9]),
   (0x4DA, [0x4DB]), (0x4DC, [0x4DD]), (0x4DE, [0x4DF]), (0x4E0, [0x4E1]),
   (0x4E2, [0x4E3]), (0x4E4, [0x4E5]), (0x4E6, [0x4E7]), (0x4E8, [0x4E9]),
   (0x4EA, [0x4EB]), (0x4EC, [0x4ED]), (0x4EE, [0x4EF]), (0x4F0, [0x4F1]),
   (0x4F2, [0x4F3]), (0x4F4, [0x4F5]), (0x4F6, [0x4F7]), (0x4F8, [0x4F9]),
   (0x4FA, [0x4FB]), (0x4FC, [0x4FD]), (0x4FE, [0x4FF]), (0x500, [0x501]),
   (0x502, [0x503]), (0x504, [0x505]), (0x506, [0x507]), (0x508, [0x509]),
   (0x50A, [0x50B]), (0x50C, [0x50D]), (0x50E, [0x50F]), (0x510, [0x511]),
   (0x512, [0x513]), (0x514, [0x515]), (0x516, [0x517]), (0x518, [0x519]),
   (0x51A, [0x51B]), (0x51C, [0x51D]), (0x51E, [0x51F]), (0x520, [0x521]),
   (0x522, [0x523]), (0x524, [0x525]), (0x526, [0x527]), (0x528, [0x529]),
   (0x52A, [0x52B]), (0x52C, [0x52D]), (0x52E, [0x52F]), (0x531, [0x561]),
   (0x532, [0x562]), (0x533, [0x563]), (0x534, [0x564]), (0x535, [0x565]),
   (0x536, [0x566]), (0x537, [0x567]), (0x538, [0x568]), (0x539, [0x569]),
   (0x53A, [0x56A]), (0x53B, [0x56B]), (0x53C, [0x56C]), (0x53D, [0x56D]),
   (0x53E, [0x56E]), (0x53F, [0x56F]), (0x540, [0x570]), (0x541, [0x571]),
   (0x542, [0x572]), (0x543, [0x573]), (0x544, [0x574]), (0x545, [0x575]),
   (0x546, [0x576]), (0x547, [0x577]), (0x548, [0x578]), (0x549, [0x579]),
   (0x54A, [0x57A]), (0x54B, [0x57B]), (0x54C, [0x57C]), (0x54D, [0x57D]),
   (0x54E, [0x57E]), (0x54F, [0x57F]), (0x550, [0x580]), (0x551, [0x581]),
   (0x552, [0x582]), (0x553, [0x583]), (0x554, [0x584]), (0x555, [0x585]),
   (0x556, [0x586]), (0x587, [0x565, 0x582]), (0x10A0, [0x2D00]), (0x10A1, [0x2D01]),
   (0x10A2, [0x2D02]), (0x10A3, [0x2D03]), (0x10A4, [0x2D04]), (0x10A5, [0x2D05]),
   (0x10A6, [0x2D06]), (0x10A7, [0x2D07]), (0x10A8, [0x2D08]), (0x10A9, [0x2D09]),
   (0x10AA, [0x2D0A]), (0x10AB, [0x2D0B]), (0x10AC, [0x2D0C]), (0x10AD, [0x2D0D]),
   (0x10AE, [0x2D0E]), (0x10AF, [0x2D0F]), (0x10B0, [0x2D10]), (0x10B1, [0x2D11]),
   (0x10B2, [0x2D12]), (0x10B3, [0x2D13]), (0x10B4, [0x2D14]), (0x10B5, [0x2D15]),
   (0x10B6, [0x2D16]), (0x10B7, [0x2D17]), (0x10B8, [0x2D18]), (0x10B9, [0x2D19]),
   (0x10BA, [0x2D1A]), (0x10BB, [0x2D1B]), (0x10BC, [0x2D1C]), (0x10BD, [0x2D1D]),
   (0x10BE, [0x2D1E]), (0x10BF, [0x2D1F]), (0x10C0, [0x2D20]), (0x10C1, [0x2D21]),
   (0x10C2, [0x2D22]), (0x10C3, [0x2D23]), (0x10C4, [0x2D24]), (0x10C5, [0x2D25]),
   (0x10C7, [0x2D27]), (0x10CD, [0x2D2D]), (0x13F8, [0x13F0]), (0x13F9, [0x13F1]),
   (0x13FA, [0x13F2]), (0x13FB, [0x13F3]), (0x13FC, [0x13F4]), (0x13FD, [0x13F5]),
   (0x1C80, [0x432]), (0x1C81, [0x434]), (0x1C82, [0x43E]), (0x1C83, [0x441]),
   (0x1C84, [0x442]), (0x1C85, [0x442]), (0x1C86, [0x44A]), (0x1C87, [0x463]),
   (0x1C88, [0xA64B]), (0x1C90, [0x10D0]), (0x1C91, [0x10D1]), (0x1C92, [0x10D2]),
   (0x1C93, [0x10D3]), (0x1C94, [0x10D4]), (0x1C95, [0x10D5]), (0x1C96, [0x10D6]),
   (0x1C97, [0x10D7]), (0x1C98, [0x10D8]), (0x1C99, [0x10D9]), (0x1C9A, [0x10DA]),
   (0x1C9B, [0x10DB]), (0x1C9C, [0x10DC]), (0x1C9D, [0x10DD]), (0x1C9E, [0x10DE]),
   (0x1C9F, [0x10DF]), (0x1CA0, [0x10E0]), (0x1CA1, [0x10E1]), (0x1CA2, [0x10E2]),
   (0x1CA3, [0x10E3]), (0x1CA4, [0x10E4]), (0x1CA5, [0x10E5]), (0x1CA6, [0x10E6]),
   (0x1CA7, [0x10E7]), (0x1CA8, [0x10E8]), (0x1CA9, [0x10E9]), (0x1CAA, [0x10EA]),
   (0x1CAB, [0x10EB]), (0x1CAC, [0x10EC]), (0x1CAD, [0x10ED]), (0x1CAE, [0x10EE]),
   (0x1CAF, [0x10EF]), (0x1CB0, [0x10F0]), (0x1CB1, [0x10F1]), (0x1CB2, [0x10F2]),
   (0x1CB3, [0x10F3]), (0x1CB4, [0x10F4]), (0x1CB5, [0x10F5]), (0x1CB6, [0x10F6]),
   (0x1CB7, [0x10F7]), (0x1CB8, [0x10F8]), (0x1CB9, [0x10F9]), (0x1CBA, [0x10FA]),
   (0x1CBD, [0x10FD]), (0x1CBE, [0x10FE]), (0x1CBF, [0x10FF]), (0x1E00, [0x1E01]),
   (0x1E02, [0x1E03]), (0x1E04, [0x1E05]), (0x1E06, [0x1E07]), (0x1E08, [0x1E09]),
   (0x1E0A, [0x1E0B]), (0x1E0C, [0x1E0D]), (0x1E0E, [0x1E0F]), (0x1E10, [0x1E11]),
   (0x1E12, [0x1E13]), (0x1E14, [0x1E15]), (0x1E16, [0x1E17]), (0x1E18, [0x1E19]),
   (0x1E1A, [0x1E1B]), (0x1E1C, [0x1E1D]), (0x1E1E, [0x1E1F]), (0x1E20, [0x1E21]),
   (0x1E22, [0x1E23]), (0x1E24, [0x1E25]), (0x1E26, [0x1E27]), (0x1E28, [0x1E29]),
   (0x1E2A, [0x1E2B]), (0x1E2C, [0x1E2D]), (0x1E2E, [0x1E2F]), (0x1E30, [0x1E31]),
   (0x1E32, [0x1E33]), (0x1E34, [0x1E35]), (0x1E36, [0x1E37]), (0x1E38, [0x1E39]),
   (0x1E3A, [0x1E3B]), (0x1E3C, [0x1E3D]), (0x1E3E, [0x1E3F]), (0x1E40, [0x1E41]),
   (0x1E42, [0x1E43]), (0x1E44, [0x1E45]), (0x1E46, [0x1E47]), (0x1E48, [0x1E49]),
   (0x1E4A, [0x1E4B]), (0x1E4C, [0x1E4D]), (0x1E4E, [0x1E4F]), (0x1E50, [0x1E51]),
   (0x1E52, [0x1E53]), (0x1E54, [0x1E55]), (0x1E56, [0x1E57]), (0x1E58, [0x1E59]),
   (0x1E5A, [0x1E5B]), (0x1E5C, [0x1E5D]), (0x1E5E, [0x1E5F]), (0x1E60, [0x1E61]),
   (0x1E62, [0x1E63]), (0x1E64, [0x1E65]), (0x1E66, [0x1E67]), (0x1E68, [0x1E69]),
   (0x1E6A, [0x1E6B]), (0x1E6C, [0x1E6D]), (0x1E6E, [0x1E6F]), (0x1E70, [0x1E71]),
   (0x1E72, [0x1E73]), (0x1E74, [0x1E75]), (0x1E76, [0x1E77]), (0x1E78, [0x1E79]),
   (0x1E7A, [0x1E7B]), (0x1E7C, [0x1E7D]), (0x1E7E, [0x1E7F]), (0x1E80, [0x1E81]),
   (0x1E82, [0x1E83]), (0x1E84, [0x1E85]), (0x1E86, [0x1E87]), (0x1E88, [0x1E89]),
   (0x1E8A, [0x1E8B]), (0x1E8C, [0x1E8D]), (0x1E8E, [0x1E8F]), (0x1E90, [0x1E91]),
   (0x1E92, [0x1E93]), (0x1E94, [0x1E95]), (0x1E96, [0x68, 0x331]), (0x1E97, [0x74, 0x308]),
   (0x1E98, [0x77, 0x30A]), (0x1E99, [0x79, 0x30A]), (0x1E9A, [0x61, 0x2BE]), (0x1E9B, [0x1E61]),
   (0x1E9E, [0x73, 0x73]), (0x1EA0, [0x1EA1]), (0x1EA2, [0x1EA3]), (0x1EA4, [0x1EA5]),
   (0x1EA6, [0x1EA7]), (0x1EA8, [0x1EA9]), (0x1EAA, [0x1EAB]), (0x1EAC, [0x1EAD]),
   (0x1EAE, [0x1EAF]), (0x1EB0, [0x1EB1]), (0x1EB2, [0x1EB3]), (0x1EB4, [0x1EB5]),
   (0x1EB6, [0x1EB7]), (0x1EB8, [0x1EB9]), (0x1EBA, [0x1EBB]), (0x1EBC, [0x1EBD]),
   (0x1EBE, [0x1EBF]), (0x1EC0, [0x1EC1]), (0x1EC2, [0x1EC3]), (0x1EC4, [0x1EC5]),
   (0x1EC6, [0x1EC7]), (0x1EC8, [0x1EC9]), (0x1ECA, [0x1ECB]), (0x1ECC, [0x1ECD]),
   (0x1ECE, [0x1ECF]), (0x1ED0, [0x1ED1]), (0x1ED2, [0x1ED3]), (0x1ED4, [0x1ED5]),
   (0x1ED6, [0x1ED7]), (0x1ED8, [0x1ED9]), (0x1EDA, [0x1EDB]), (0x1EDC, [0x1EDD]),
   (0x1EDE, [0x1EDF]), (0x1EE0, [0x1EE1]), (0x1EE2, [0x1EE3]), (0x1EE4, [0x1EE5]),
   (0x1EE6, [0x1EE7]), (0x1EE8, [0x1EE9]), (0x1EEA, [0x1EEB]), (0x1EEC, [0x1EED]),
   (0x1EEE, [0x1EEF]), (0x1EF0, [0x1EF1]), (0x1EF2, [0x1EF3]), (0x1EF4, [0x1EF5]),
   (0x1EF6, [0x1EF7]), (0x1EF8, [0x1EF9]), (0x1EFA, [0x1EFB]), (0x1EFC, [0x1EFD]),
   (0x1EFE, [0x1EFF]), (0x1F08, [0x1F00]), (0x1F09, [0x1F01]), (0x1F0A, [0x1F02]),
   (0x1F0B, [0x1F03]), (0x1F0C, [0x1F04]), (0x1F0D, [0x1F05]), (0x1F0E, [0x1F06]),
   (0x1F0F, [0x1F07]), (0x1F18, [0x1F10]), (0x1F19, [0x1F11]), (0x1F1A, [0x1F12]),
   (0x1F1B, [0x1F13]), (0x1F1C, [0x1F14]), (0x1F1D, [0x1F15]), (0x1F28, [0x1F20]),
   (0x1F29, [0x1F21]), (0x1F2A, [0x1F22]), (0x1F2B, [0x1F23]), (0x1F2C, [0x1F24]),
   (0x1F2D, [0x1F25]), (0x1F2E, [0x1F26]), (0x1F2F, [0x1F27]), (0x1F38, [0x1F30]),
   (0x1F39, [0x1F31]), (0x1F3A, [0x1F32]), (0x1F3B, [0x1F33]), (0x1F3C, [0x1F34]),
   (0x1F3D, [0x1F35]), (0x1F3E, [0x1F36]), (0x1F3F, [0x1F37]), (0x1F48, [0x1F40]),
   (0x1F49, [0x1F41]), (0x1F4A, [0x1F42]), (0x1F4B, [0x1F43]), (0x1F4C, [0x1F44]),
   (0x1F4D, [0x1F45]), (0x1F50, [0x3C5, 0x313]), (0x1F52, [0x3C5, 0x313, 0x300]), (0x1F54, [0x3C5, 0x313, 0x301]),
   (0x1F56, [0x3C5, 0x313, 0x342]), (0x1F59, [0x1F51]), (0x1F5B, [0x1F53]), (0x1F5D, [0x1F55]),
   (0x1F5F, [0x1F57]), (0x1F68, [0x1F60]), (0x1F69, [0x1F61]), (0x1F6A, [0x1F62]),
   (0x1F6B, [0x1F63]), (0x1F6C, [0x1F64]), (0x1F6D, [0x1F65]), (0x1F6E, [0x1F66]),
   (0x1F6F, [0x1F67]), (0x1F80, [0x1F00, 0x3B9]), (0x1F81, [0x1F01, 0x3B9]), (0x1F82, [0x1F02, 0x3B9]),
   (0x1F83, [0x1F03, 0x3B9]), (0x1F84, [0x1F04, 0x3B9]), (0x1F85, [0x1F05, 0x3B9]), (0x1F86, [0x1F06, 0x3B9]),
   (0x1F87, [0x1F07, 0x3B9]), (0x1F88, [0x1F00, 0x3B9]), (0x1F89, [0x1F01, 0x3B9]), (0x1F8A, [0x1F02, 0x3B9]),
   (0x1F8B, [0x1F03, 0x3B9]), (0x1F8C, [0x1F04, 0x3B9]), (0x1F8D, [0x1F05, 0x3B9]), (0x1F8E, [0x1F06, 0x3B9]),
   (0x1F8F, [0x1F07, 0x3B9]), (0x1F90, [0x1F20, 0x3B9]), (0x1F91, [0x1F21, 0x3B9]), (0x1F92, [0x1F22, 0x3B9]),
   (0x1F93, [0x1F23, 0x3B9]), (0x1F94, [0x1F24, 0x3B9]), (0x1F95, [0x1F25, 0x3B9]), (0x1F96, [0x1F26, 0x3B9]),
   (0x1F97, [0x1F27, 0x3B9]), (0x1F98, [0x1F20, 0x3B9]), (0x1F99, [0x1F21, 0x3B9]), (0x1F9A, [0x1F22, 0x3B9]),
   (0x1F9B, [0x1F23, 0x3B9]), (0x1F9C, [0x1F24, 0x3B9]), (0x1F9D, [0x1F25, 0x3B9]), (0x1F9E, [0x1F26, 0x3B9]),
   (0x1F9F, [0x1F27, 0x3B9]), (0x1FA0, [0x1F60, 0x3B9]), (0x1FA1, [0x1F61, 0x3B9]), (0x1FA2, [0x1F62, 0x3B9]),
   (0x1FA3, [0x1F63, 0x3B9]), (0x1FA4, [0x1F64, 0x3B9]), (0x1FA5, [0x1F65, 0x3B9]), (0x1FA6, [0x1F66, 0x3B9]),
   (0x1FA7, [0x1F67, 0x3B9]), (0x1FA8, [0x1F60, 0x3B9]), (0x1FA9, [0x1F61, 0x3B9]), (0x1FAA, [0x1F62, 0x3B9]),
   (0x1FAB, [0x1F63, 0x3B9]), (0x1FAC, [0x1F64, 0x3B9]), (0x1FAD, [0x1F65, 0x3B9]), (0x1FAE, [0x1F66, 0x3B9]),
   (0x1FAF, [0x1F67, 0x3B9]), (0x1FB2, [0x1F70, 0x3B9]), (0x1FB3, [0x3B1, 0x3B9]), (0x1FB4, [0x3AC, 0x3B9]),
   (0x1FB6, [0x3B1, 0x342]), (0x1FB7, [0x3B1, 0x342, 0x3B9]), (0x1FB8, [0x1FB0]), (0x1FB9, [0x1FB1]),
   (0x1FBA, [0x1F70]), (0x1FBB, [0x1F71]), (0x1FBC, [0x3B1, 0x3B9]), (0x1FBE, [0x3B9]),
   (0x1FC2, [0x1F74, 0x3B9]), (0x1FC3, [0x3B7, 0x3B9]), (0x1FC4, [0x3AE, 0x3B9]), (0x1FC6, [0x3B7, 0x342]),
   (0x1FC7, [0x3B7, 0x342, 0x3B9]), (0x1FC8, [0x1F72]), (0x1FC9, [0x1F73]), (0x1FCA, [0x1F74]),
   (0x1FCB, [0x1F75]), (0x1FCC, [0x3B7, 0x3B9]), (0x1FD2, [0x3B9, 0x308, 0x300]), (0x1FD3, [0x3B9, 0x308, 0x301]),
   (0x1FD6, [0x3B9, 0x342]), (0x1FD7, [0x3B9, 0x308, 0x342]), (0x1FD8, [0x1FD0]), (0x1FD9, [0x1FD1]),
   (0x1FDA, [0x1F76]), (0x1FDB, [0x1F77]), (0x1FE2, [0x3C5, 0x308, 0x300]), (0x1FE3, [0x3C5, 0x308, 0x301]),
   (0x1FE4, [0x3C1, 0x313]), (0x1FE6, [0x3C5, 0x342]), (0x1FE7, [0x3C5, 0x308, 0x342]), (0x1FE8, [0x1FE0]),
   (0x1FE9, [0x1FE1]), (0x1FEA, [0x1F7A]), (0x1FEB, [0x1F7B]), (0x1FEC, [0x1FE5]),
   (0x1FF2, [0x1F7C, 0x3B9]), (0x1FF3, [0x3C9, 0x3B9]), (0x1FF4, [0x3CE, 0x3B9]), (0x1FF6, [0x3C9, 0x342]),
   (0x1FF7, [0x3C9, 0x342, 0x3B9]), (0x1FF8, [0x1F78]), (0x1FF9, [0x1F79]), (0x1FFA, [0x1F7C]),
   (0x1FFB, [0x1F7D]), (0x1FFC, [0x3C9, 0x3B9]), (0x2126, [0x3C9]), (0x212A, [0x6B]),
   (0x212B, [0xE5]), (0x2132, [0x214E]), (0x2160, [0x2170]), (0x2161, [0x2171]),
   (0x2162, [0x2172]), (0x2163, [0x2173]), (0x2164, [0x2174]), (0x2165, [0x2175]),
   (0x2166, [0x2176]), (0x2167, [0x2177]), (0x2168, [0x2178]), (0x2169, [0x2179]),
   (0x216A, [0x217A]), (0x216B, [0x217B]), (0x216C, [0x217C]), (0x216D, [0x217D]),
   (0x216E, [0x217E]), (0x216F, [0x217F]), (0x2183, [0x2184]), (0x24B6, [0x24D0]),
   (0x24B7, [0x24D1]), (0x24B8, [0x24D2]), (0x24B9, [0x24D3]), (0x24BA, [0x24D4]),
   (0x24BB, [0x24D5]), (0x24BC, [0x24D6]), (0x24BD, [0x24D7]), (0x24BE, [0x24D8]),
   (0x24BF, [0x24D9]), (0x24C0, [0x24DA]), (0x24C1, [0x24DB]), (0x24C2, [0x24DC]),
   (0x24C3, [0x24DD]), (0x24C4, [0x24DE]), (0x24C5, [0x24DF]), (0x24C6, [0x24E0]),
   (0x24C7, [0x24E1]), (0x24C8, [0x24E2]), (0x24C9, [0x24E3]), (0x24CA, [0x24E4]),
   (0x24CB, [0x24E5]), (0x24CC, [0x24E6]), (0x24CD, [0x24E7]), (0x24CE, [0x24E8]),
   (0x24CF, [0x24E9]), (0x2C00, [0x2C30]), (0x2C01, [0x2C31]), (0x2C02, [0x2C32]),
   (0x2C03, [0x2C33]), (0x2C04, [0x2C34]), (0x2C05, [0x2C35]), (0x2C06, [0x2C36]),
   (0x2C07, [0x2C37]), (0x2C08, [0x2C38]), (0x2C09, [0x2C39]), (0x2C0A, [0x2C3A]),
   (0x2C0B, [0x2C3B]), (0x2C0C, [0x2C3C]), (0x2C0D, [0x2C3D]), (0x2C0E, [0x2C3E]),
   (0x2C0F, [0x2C3F]), (0x2C10, [0x2C40]), (0x2C11, [0x2C41]), (0x2C12, [0x2C42]),
   (0x2C13, [0x2C43]), (0x2C14, [0x2C44]), (0x2C15, [0x2C45]), (0x2C16, [0x2C46]),
   (0x2C17, [0x2C47]), (0x2C18, [0x2C48]), (0x2C19, [0x2C49]), (0x2C1A, [0x2C4A]),
   (0x2C1B, [0x2C4B]), (0x2C1C, [0x2C4C]), (0x2C1D, [0x2C4D]), (0x2C1E, [0x2C4E]),
   (0x2C1F, [0x2C4F]), (0x2C20, [0x2C50]), (0x2C21, [0x2C51]), (0x2C22, [0x2C52]),
   (0x2C23, [0x2C53]), (0x2C24, [0x2C54]), (0x2C25, [0x2C55]), (0x2C26, [0x2C56]),
   (0x2C27, [0x2C57]), (0x2C28, [0x2C58]), (0x2C29, [0x2C59]), (0x2C2A, [0x2C5A]),
   (0x2C2B, [0x2C5B]), (0x2C2C, [0x2C5C]), (0x2C2D, [0x2C5D]), (0x2C2E, [0x2C5E]),
   (0x2C2F, [0x2C5F]), (0x2C60, [0x2C61]), (0x2C62, [0x26B]), (0x2C63, [0x1D7D]),
   (0x2C64, [0x27D]), (0x2C67, [0x2C68]), (0x2C69, [0x2C6A]), (0x2C6B, [0x2C6C]),
   (0x2C6D, [0x251]), (0x2C6E, [0x271]), (0x2C6F, [0x250]), (0x2C70, [0x252]),
   (0x2C72, [0x2C73]), (0x2C75, [0x2C76]), (0x2C7E, [0x23F]), (0x2C7F, [0x240]),
   (0x2C80, [0x2C81]), (0x2C82, [0x2C83]), (0x2C84, [0x2C85]), (0x2C86, [0x2C87]),
   (0x2C88, [0x2C89]), (0x2C8A, [0x2C8B]), (0x2C8C, [0x2C8D]), (0x2C8E, [0x2C8F]),
   (0x2C90, [0x2C91]), (0x2C92, [0x2C93]), (0x2C94, [0x2C95]), (0x2C96, [0x2C97]),
   (0x2C98, [0x2C99]), (0x2C9A, [0x2C9B]), (0x2C9C, [0x2C9D]), (0x2C9E, [0x2C9F]),
   (0x2CA0, [0x2CA1]), (0x2CA2, [0x2CA3]), (0x2CA4, [0x2CA5]), (0x2CA6, [0x2CA7]),
   (0x2CA8, [0x2CA9]), (0x2CAA, [0x2CAB]), (0x2CAC, [0x2CAD]), (0x2CAE, [0x2CAF]),
   (0x2CB0, [0x2CB1]), (0x2CB2, [0x2CB3]), (0x2CB4, [0x2CB5]), (0x2CB6, [0x2CB7]),
   (0x2CB8, [0x2CB9]), (0x2CBA, [0x2CBB]), (0x2CBC, [0x2CBD]), (0x2CBE, [0x2CBF]),
   (0x2CC0, [0x2CC1]), (0x2CC2, [0x2CC3]), (0x2CC4, [0x2CC5]), (0x2CC6, [0x2CC7]),
   (0x2CC8, [0x2CC9]), (0x2CCA, [0x2CCB]), (0x2CCC, [0x2CCD]), (0x2CCE, [0x2CCF]),
   (0x2CD0, [0x2CD1]), (0x2CD2, [0x2CD3]), (0x2CD4, [0x2CD5]), (0x2CD6, [0x2CD7]),
   (0x2CD8, [0x2CD9]), (0x2CDA, [0x2CDB]), (0x2CDC, [0x2CDD]), (0x2CDE, [0x2CDF]),
   (0x2CE0, [0x2CE1]), (0x2CE2, [0x2CE3]), (0x2CEB, [0x2CEC]), (0x2CED, [0x2CEE]),
   (0x2CF2, [0x2CF3]), (0xA640, [0xA641]), (0xA642, [0xA643]), (0xA644, [0xA645]),
   (0xA646, [0xA647]), (0xA648, [0xA649]), (0xA64A, [0xA64B]), (0xA64C, [0xA64D]),
   (0xA64E, [0xA64F]), (0xA650, [0xA651]), (0xA652, [0xA653]), (0xA654, [0xA655]),
   (0xA656, [0xA657]), (0xA658, [0xA659]), (0xA65A, [0xA65B]), (0xA65C, [0xA65D]),
   (0xA65E, [0xA65F]), (0xA660, [0xA661]), (0xA662, [0xA663]), (0xA664, [0xA665]),
   (0xA666, [0xA667]), (0xA668, [0xA669]), (0xA66A, [0xA66B]), (0xA66C, [0xA66D]),
   (0xA680, [0xA681]), (0xA682, [0xA683]), (0xA684, [0xA685]), (0xA686, [0xA687]),
   (0xA688, [0xA689]), (0xA68A, [0xA68B]), (0xA68C, [0xA68D]), (0xA68E, [0xA68F]),
   (0xA690, [0xA691]), (0xA692, [0xA693]), (0xA694, [0xA695]), (0xA696, [0xA697]),
   (0xA698, [0xA699]), (0xA69A, [0xA69B]), (0xA722, [0xA723]), (0xA724, [0xA725]),
   (0xA726, [0xA727]), (0xA728, [0xA729]), (0xA72A, [0xA72B]), (0xA72C, [0xA72D]),
   (0xA72E, [0xA72F]), (0xA732, [0xA733]), (0xA734, [0xA735]), (0xA736, [0xA737]),
   (0xA738, [0xA739]), (0xA73A, [0xA73B]), (0xA73C, [0xA73D]), (0xA73E, [0xA73F]),
   (0xA740, [0xA741]), (0xA742, [0xA743]), (0xA744, [0xA745]), (0xA746, [0xA747]),
   (0xA748, [0xA749]), (0xA74A, [0xA74B]), (0xA74C, [0xA74D]), (0xA74E, [0xA74F]),
   (0xA750, [0xA751]), (0xA752, [0xA753]), (0xA754, [0xA755]), (0xA756, [0xA757]),
   (0xA758, [0xA759]), (0xA75A, [0xA75B]), (0xA75C, [0xA75D]), (0xA75E, [0xA75F]),
   (0xA760, [0xA761]), (0xA762, [0xA763]), (0xA764, [0xA765]), (0xA766, [0xA767]),
   (0xA768, [0xA769]), (0xA76A, [0xA76B]), (0xA76C, [0xA76D]), (0xA76E, [0xA76F]),
   (0xA779, [0xA77A]), (0xA77B, [0xA77C]), (0xA77D, [0x1D79]), (0xA77E, [0xA77F]),
   (0xA780, [0xA781]), (0xA782, [0xA783]), (0xA784, [0xA785]), (0xA786, [0xA787]),
   (0xA78B, [0xA78C]), (0xA78D, [0x265]), (0xA790, [0xA791]), (0xA792, [0xA793]),
   (0xA796, [0xA797]), (0xA798, [0xA799]), (0xA79A, [0xA79B]), (0xA79C, [0xA79D]),
   (0xA79E, [0xA79F]), (0xA7A0, [0xA7A1]), (0xA7A2, [0xA7A3]), (0xA7A4, [0xA7A5]),
   (0xA7A6, [0xA7A7]), (0xA7A8, [0xA7A9]), (0xA7AA, [0x266]), (0xA7AB, [0x25C]),
   (0xA7AC, [0x261]), (0xA7AD, [0x26C]), (0xA7AE, [0x26A]), (0xA7B0, [0x29E]),
   (0xA7B1, [0x287]), (0xA7B2, [0x29D]), (0xA7B3, [0xAB53]), (0xA7B4, [0xA7B5]),
   (0xA7B6, [0xA7B7]), (0xA7B8, [0xA7B9]), (0xA7BA, [0xA7BB]), (0xA7BC, [0xA7BD]),
   (0xA7BE, [0xA7BF]), (0xA7C0, [0xA7C1]), (0xA7C2, [0xA7C3]), (0xA7C4, [0xA794]),
   (0xA7C5, [0x282]), (0xA7C6, [0x1D8E]), (0xA7C7, [0xA7C8]), (0xA7C9, [0xA7CA]),
   (0xA7D0, [0xA7D1]), (0xA7D6, [0xA7D7]), (0xA7D8, [0xA7D9]), (0xA7F5, [0xA7F6]),
   (0xAB70, [0x13A0]), (0xAB71, [0x13A1]), (0xAB72, [0x13A2]), (0xAB73, [0x13A3]),
   (0xAB74, [0x13A4]), (0xAB75, [0x13A5]), (0xAB76, [0x13A6]), (0xAB77, [0x13A7]),
   (0xAB78, [0x13A8]), (0xAB79, [0x13A9]), (0xAB7A, [0x13AA]), (0xAB7B, [0x13AB]),
   (0xAB7C, [0x13AC]), (0xAB7D, [0x13AD]), (0xAB7E, [0x13AE]), (0xAB7F, [0x13AF]),
   (0xAB80, [0x13B0]), (0xAB81, [0x13B1]), (0xAB82, [0x13B2]), (0xAB83, [0x13B3]),
   (0xAB84, [0x13B4]), (0xAB85, [0x13B5]), (0xAB86, [0x13B6]), (0xAB87, [0x13B7]),
   (0xAB88, [0x13B8]), (0xAB89, [0x13B9]), (0xAB8A, [0x13BA]), (0xAB8B, [0x13BB]),
   (0xAB8C, [0x13BC]), (0xAB8D, [0x13BD]), (0xAB8E, [0x13BE]), (0xAB8F, [0x13BF]),
   (0xAB90, [0x13C0]), (0xAB91, [0x13C1]), (0xAB92, [0x13C2]), (0xAB93, [0x13C3]),
   (0xAB94, [0x13C4]), (0xAB95, [0x13C5]), (0xAB96, [0x13C6]), (0xAB97, [0x13C7]),
   (0xAB98, [0x13C8]), (0xAB99, [0x13C9]), (0xAB9A, [0x13CA]), (0xAB9B, [0x13CB]),
   (0xAB9C, [0x13CC]), (0xAB9D, [0x13CD]), (0xAB9E, [0x13CE]), (0xAB9F, [0x13CF]),
   (0xABA0, [0x13D0]), (0xABA1, [0x13D1]), (0xABA2, [0x13D2]), (0xABA3, [0x13D3]),
   (0xABA4, [0x13D4]), (0xABA5, [0x13D5]), (0xABA6, [0x13D6]), (0xABA7, [0x13D7]),
   (0xABA8, [0x13D8]), (0xABA9, [0x13D9]), (0xABAA, [0x13DA]), (0xABAB, [0x13DB]),
   (0xABAC, [0x13DC]), (0xABAD, [0x13DD]), (0xABAE, [0x13DE]), (0xABAF, [0x13DF]),
   (0xABB0, [0x13E0]), (0xABB1, [0x13E1]), (0xABB2, [0x13E2]), (0xABB3, [0x13E3]),
   (0xABB4, [0x13E4]), (0xABB5, [0x13E5]), (0xABB6, [0x13E6]), (0xABB7, [0x13E7]),
   (0xABB8, [0x13E8]), (0xABB9, [0x13E9]), (0xABBA, [0x13EA]), (0xABBB, [0x13EB]),
   (0xABBC, [0x13EC]), (0xABBD, [0x13ED]), (0xABBE, [0x13EE]), (0xABBF, [0x13EF]),
   (0xFB00, [0x66, 0x66]), (0xFB01, [0x66, 0x69]), (0xFB02, [0x66, 0x6C]), (0xFB03, [0x66, 0x66, 0x69]),
   (0xFB04, [0x66, 0x66, 0x6C]), (0xFB05, [0x73, 0x74]), (0xFB06, [0x73, 0x74]), (0xFB13, [0x574, 0x576]),
   (0xFB14, [0x574, 0x565]), (0xFB15, [0x574, 0x56B]), (0xFB16, [0x57E, 0x576]), (0xFB17, [0x574, 0x56D]),
   (0xFF21, [0xFF41]), (0xFF22, [0xFF42]), (0xFF23, [0xFF43]), (0xFF24, [0xFF44]),
   (0xFF25, [0xFF45]), (0xFF26, [0xFF46]), (0xFF27, [0xFF47]), (0xFF28, [0xFF48]),
   (0xFF29, [0xFF49]), (0xFF2A, [0xFF4A]), (0xFF2B, [0xFF4B]), (0xFF2C, [0xFF4C]),
   (0xFF2D, [0xFF4D]), (0xFF2E, [0xFF4E]), (0xFF2F, [0xFF4F]), (0xFF30, [0xFF50]),
   (0xFF31, [0xFF51]), (0xFF32, [0xFF52]), (0xFF33, [0xFF53]), (0xFF34, [0xFF54]),
   (0xFF35, [0xFF55]), (0xFF36, [0xFF56]), (0xFF37, [0xFF57]), (0xFF38, [0xFF58]),
   (0xFF39, [0xFF59]), (0xFF3A, [0xFF5A]), (0x10400, [0x10428]), (0x10401, [0x10429]),
   (0x10402, [0x1042A]), (0x10403, [0x1042B]), (0x10404, [0x1042C]), (0x10405, [0x1042D]),
   (0x10406, [0x1042E]), (0x10407, [0x1042F]), (0x10408, [0x10430]), (0x10409, [0x10431]),
   (0x1040A, [0x10432]), (0x1040B, [0x10433]), (0x1040C, [0x10434]), (0x1040D, [0x10435]),
   (0x1040E, [0x10436]), (0x1040F, [0x10437]), (0x10410, [0x10438]), (0x10411, [0x10439]),
   (0x10412, [0x1043A]), (0x10413, [0x1043B]), (0x10414, [0x1043C]), (0x10415, [0x1043D]),
   (0x10416, [0x1043E]), (0x10417, [0x1043F]), (0x10418, [0x10440]), (0x10419, [0x10441]),
   (0x1041A, [0x10442]), (0x1041B, [0x10443]), (0x1041C, [0x10444]), (0x1041D, [0x10445]),
   (0x1041E, [0x10446]), (0x1041F, [0x10447]), (0x10420, [0x10448]), (0x10421, [0x10449]),
   (0x10422, [0x1044A]), (0x10423, [0x1044B]), (0x10424, [0x1044C]), (0x10425, [0x1044D]),
   (0x10426, [0x1044E]), (0x10427, [0x1044F]), (0x104B0, [0x104D8]), (0x104B1, [0x104D9]),
   (0x104B2, [0x104DA]), (0x104B3, [0x104DB]), (0x104B4, [0x104DC]), (0x104B5, [0x104DD]),
   (0x104B6, [0x104DE]), (0x104B7, [0x104DF]), (0x104B8, [0x104E0]), (0x104B9, [0x104E1]),
   (0x104BA, [0x104E2]), (0x104BB, [0x104E3]), (0x104BC, [0x104E4]), (0x104BD, [0x104E5]),
   (0x104BE, [0x104E6]), (0x104BF, [0x104E7]), (0x104C0, [0x104E8]), (0x104C1, [0x104E9]),
   (0x104C2, [0x104EA]), (0x104C3, [0x104EB]), (0x104C4, [0x104EC]), (0x104C5, [0x104ED]),
   (0x104C6, [0x104EE]), (0x104C7, [0x104EF]), (0x104C8, [0x104F0]), (0x104C9, [0x104F1]),
   (0x104CA, [0x104F2]), (0x104CB, [0x104F3]), (0x104CC, [0x104F4]), (0x104CD, [0x104F5]),
   (0x104CE, [0x104F6]), (0x104CF, [0x104F7]), (0x104D0, [0x104F8]), (0x104D1, [0x104F9]),
   (0x104D2, [0x104FA]), (0x104D3, [0x104FB]), (0x10570, [0x10597]), (0x10571, [0x10598]),
   (0x10572, [0x10599]), (0x10573, [0x1059A]), (0x10574, [0x1059B]), (0x10575, [0x1059C]),
   (0x10576, [0x1059D]), (0x10577, [0x1059E]), (0x10578, [0x1059F]), (0x10579, [0x105A0]),
   (0x1057A, [0x105A1]), (0x1057C, [0x105A3]), (0x1057D, [0x105A4]), (0x1057E, [0x105A5]),
   (0x1057F, [0x105A6]), (0x10580, [0x105A7]), (0x10581, [0x105A8]), (0x10582, [0x105A9]),
   (0x10583, [0x105AA]), (0x10584, [0x105AB]), (0x10585, [0x105AC]), (0x10586, [0x105AD]),
   (0x10587, [0x105AE]), (0x10588, [0x105AF]), (0x10589, [0x105B0]), (0x1058A, [0x105B1]),
   (0x1058C, [0x105B3]), (0x1058D, [0x105B4]), (0x1058E, [0x105B5]), (0x1058F, [0x105B6]),
   (0x10590, [0x105B7]), (0x10591, [0x105B8]), (0x10592, [0x105B9]), (0x10594, [0x105BB]),
   (0x10595, [0x105BC]), (0x10C80, [0x10CC0]), (0x10C81, [0x10CC1]), (0x10C82, [0x10CC2]),
   (0x10C83, [0x10CC3]), (0x10C84, [0x10CC4]), (0x10C85, [0x10CC5]), (0x10C86, [0x10CC6]),
   (0x10C87, [0x10CC7]), (0x10C88, [0x10CC8]), (0x10C89, [0x10CC9]), (0x10C8A, [0x10CCA]),
   (0x10C8B, [0x10CCB]), (0x10C8C, [0x10CCC]), (0x10C8D, [0x10CCD]), (0x10C8E, [0x10CCE]),
   (0x10C8F, [0x10CCF]), (0x10C90, [0x10CD0]), (0x10C91, [0x10CD1]), (0x10C92, [0x10CD2]),
   (0x10C93, [0x10CD3]), (0x10C94, [0x10CD4]), (0x10C95, [0x10CD5]), (0x10C96, [0x10CD6]),
   (0x10C97, [0x10CD7]), (0x10C98, [0x10CD8]), (0x10C99, [0x10CD9]), (0x10C9A, [0x10CDA]),
   (0x10C9B, [0x10CDB]), (0x10C9C, [0x10CDC]), (0x10C9D, [0x10CDD]), (0x10C9E, [0x10CDE]),
   (0x10C9F, [0x10CDF]), (0x10CA0, [0x10CE0]), (0x10CA1, [0x10CE1]), (0x10CA2, [0x10CE2]),
   (0x10CA3, [0x10CE3]), (0x10CA4, [0x10CE4]), (0x10CA5, [0x10CE5]), (0x10CA6, [0x10CE6]),
   (0x10CA7, [0x10CE7]), (0x10CA8, [0x10CE8]), (0x10CA9, [0x10CE9]), (0x10CAA, [0x10CEA]),
   (0x10CAB, [0x10CEB]), (0x10CAC, [0x10CEC]), (0x10CAD, [0x10CED]), (0x10CAE, [0x10CEE]),
   (0x10CAF, [0x10CEF]), (0x10CB0, [0x10CF0]), (0x10CB1, [0x10CF1]), (0x10CB2, [0x10CF2]),
   (0x118A0, [0x118C0]), (0x118A1, [0x118C1]), (0x118A2, [0x118C2]), (0x118A3, [0x118C3]),
   (0x118A4, [0x118C4]), (0x118A5, [0x118C5]), (0x118A6, [0x118C6]), (0x118A7, [0x118C7]),
   (0x118A8, [0x118C8]), (0x118A9, [0x118C9]), (0x118AA, [0x118CA]), (0x118AB, [0x118CB]),
   (0x118AC, [0x118CC]), (0x118AD, [0x118CD]), (0x118AE, [0x118CE]), (0x118AF, [0x118CF]),
   (0x118B0, [0x118D0]), (0x118B1, [0x118D1]), (0x118B2, [0x118D2]), (0x118B3, [0x118D3]),
   (0x118B4, [0x118D4]), (0x118B5, [0x118D5]), (0x118B6, [0x118D6]), (0x118B7, [0x118D7]),
   (0x118B8, [0x118D8]), (0x118B9, [0x118D9]), (0x118BA, [0x118DA]), (0x118BB, [0x118DB]),
   (0x118BC, [0x118DC]), (0x118BD, [0x118DD]), (0x118BE, [0x118DE]), (0x118BF, [0x118DF]),
   (0x16E40, [0x16E60]), (0x16E41, [0x16E61]), (0x16E42, [0x16E62]), (0x16E43, [0x16E63]),
   (0x16E44, [0x16E64]), (0x16E45, [0x16E65]), (0x16E46, [0x16E66]), (0x16E47, [0x16E67]),
   (0x16E48, [0x16E68]), (0x16E49, [0x16E69]), (0x16E4A, [0x16E6A]), (0x16E4B, [0x16E6B]),
   (0x16E4C, [0x16E6C]), (0x16E4D, [0x16E6D]), (0x16E4E, [0x16E6E]), (0x16E4F, [0x16E6F]),
   (0x16E50, [0x16E70]), (0x16E51, [0x16E71]), (0x16E52, [0x16E72]), (0x16E53, [0x16E73]),
   (0x16E54, [0x16E74]), (0x16E55, [0x16E75]), (0x16E56, [0x16E76]), (0x16E57, [0x16E77]),
   (0x16E58, [0x16E78]), (0x16E59, [0x16E79]), (0x16E5A, [0x16E7A]), (0x16E5B, [0x16E7B]),
   (0x16E5C, [0x16E7C]), (0x16E5D, [0x16E7D]), (0x16E5E, [0x16E7E]), (0x16E5F, [0x16E7F]),
   (0x1E900, [0x1E922]), (0x1E901, [0x1E923]), (0x1E902, [0x1E924]), (0x1E903, [0x1E925]),
   (0x1E904, [0x1E926]), (0x1E905, [0x1E927]), (0x1E906, [0x1E928]), (0x1E907, [0x1E929]),
   (0x1E908, [0x1E92A]), (0x1E909, [0x1E92B]), (0x1E90A, [0x1E92C]), (0x1E90B, [0x1E92D]),
   (0x1E90C, [0x1E92E]), (0x1E90D, [0x1E92F]), (0x1E90E, [0x1E930]), (0x1E90F, [0x1E931]),
   (0x1E910, [0x1E932]), (0x1E911, [0x1E933]), (0x1E912, [0x1E934]), (0x1E913, [0x1E935]),
   (0x1E914, [0x1E936]), (0x1E915, [0x1E937]), (0x1E916, [0x1E938]), (0x1E917, [0x1E939]),
   (0x1E918, [0x1E93A]), (0x1E919, [0x1E93B]), (0x1E91A, [0x1E93C]), (0x1E91B, [0x1E93D]),
   (0x1E91C, [0x1E93E]), (0x1E91D, [0x1E93F]), (0x1E91E, [0x1E940]), (0x1E91F, [0x1E941]),
   (0x1E920, [0x1E942]), (0x1E921, [0x1E943])]

/-- Casefold one code point: the fold of `str.casefold`, identity outside
the table. -/
def foldCp (n : Nat) : List Nat :=
  match caseFoldTable.find? (fun e => e.1 == n) with
  | some e => e.2
  | none => [n]

/-- Sort key `f.name.casefold()` as a code-point sequence: each character
folded, results concatenated. -/
def casefoldData (l : List Char) : List Nat :=
  (l.map (fun c => foldCp c.toNat)).join

/-- Model of Python `s.split(sep)` for a one-character separator: splitting
never drops fields, and the empty string yields one empty field. -/
def splitOnChar (sep : Char) : List Char → List (List Char)
  | [] => [[]]
  | c :: cs =>
    match splitOnChar sep cs with
    | [] => [[]]
    | p :: ps => if c = sep then [] :: p :: ps else (c :: p) :: ps

/-- Characters Python `str.strip()` removes: space, tab, newline, carriage
return, vertical tab and form feed. -/
def isPySpace (c : Char) : Bool :=
  c == ' ' || c == '\t' || c == '\n' || c == '\r' || c == '\x0b' || c == '\x0c'

/-- Model of Python `str.strip()`: drop whitespace from both ends. -/
def pyStrip (s : String) : String :=
  ⟨((s.data.dropWhile isPySpace).reverse.dropWhile isPySpace).reverse⟩

/-- Index of the last `.` in a character list, if any; models
Python `str.rfind(".")` restricted to the found case. -/
def rfindDotIdx : List Char → Option Nat
  | [] => none
  | c :: cs =>
    match rfindDotIdx cs with
    | some j => some (j + 1)
    | none => if c = '.' then some 0 else none

/-- Lexicographic comparison of code-point sequences, the order Python
uses when comparing the string sort keys of `list.sort`. -/
def listLe : List Nat → List Nat → Bool
  | [], _ => true
  | _ :: _, [] => false
  | a :: as, b :: bs =>
    if a < b then true
    else if b < a then false
    else listLe as bs

/-! ### Extension sets (module constants of the script) -/

/-- Supported RAW extensions, lowercase, as in the `RAW_EXTENSIONS` constant. -/
def RAW_EXTENSIONS : List String := [".cr3", ".dng", ".arw", ".nef", ".orf", ".raf", ".rw2"]

/-- Supported JPEG extensions, lowercase, as in the `JPEG_EXTENSIONS` constant. -/
def JPEG_EXTENSIONS : List String := [".jpg", ".jpeg"]

/-- Union of the two supported sets, as in the `ALL_EXTENSIONS` constant. -/
def ALL_EXTENSIONS : List String := RAW_EXTENSIONS ++ JPEG_EXTENSIONS

/-! ### Timestamp validation (`validate_date`) -/

/-- Exact lexical shape of the regular expression `\d{4}_\d{2}_\d{2}_\d{6}`:
seventeen characters, Unicode decimal digits (Python `\d` without
`re.ASCII`) and underscores in fixed positions. -/
def dateShape : List Char → Bool
  | [y1, y2, y3, y4, a, m1, m2, b, d1, d2, c, t1, t2, t3, t4, t5, t6] =>
    isPyDigit y1 && isPyDigit y2 && isPyDigit y3 && isPyDigit y4 && a == '_' &&
    isPyDigit m1 && isPyDigit m2 && b == '_' && isPyDigit d1 && isPyDigit d2 && c == '_' &&
    isPyDigit t1 && isPyDigit t2 && isPyDigit t3 && isPyDigit t4 && isPyDigit t5 &&
    isPyDigit t6
  | _ => false

/-- Semantics of `DATE_PATTERN.match(s)` in Python: the pattern is anchored
at the start by `^`, and `$` matches at the end of the string or just
before a single newline at the end of the string. -/
def pyMatchDate (s : String) : Bool :=
  dateShape s.data ||
    (match s.data.getLast? with
     | some ch => ch == '\n' && dateShape s.data.dropLast
     | none => false)

/-- Model of `validate_date`: return the string when it is truthy and the
pattern matches, else `None`.  The `Option` argument models the
`str | None` parameter type. -/
def validate_date : Option String → Option String
  | none => none
  | some s => if s ≠ "" ∧ pyMatchDate s = true then some s else none

/-! ### Exiftool batch-output parsing (`_run_exiftool_batch`) -/

/-- Model of `pathlib.Path(s).name` for ordinary paths: the last nonempty
`/`-separated component, or the empty string when there is none. -/
def pathName (s : String) : String :=
  match ((splitOnChar '/' s.data).filter (fun seg => seg ≠ [])).getLast? with
  | some seg => ⟨seg⟩
  | none => ""

/-- Model of Python `a or b` on `str | None` values: `a` wins only when it
is a truthy (nonempty) string. -/
def pyOrStr (a b : Option String) : Option String :=
  match a with
  | some s => if s ≠ "" then some s else b
  | none => b

/-- Tab-separated fields of one exiftool output line (`line.split("\t")`). -/
def tabFields (line : String) : List String :=
  (splitOnChar '\t' line.data).map (fun l => (⟨l⟩ : String))

/-- Processing of a single line of the loop in `_run_exiftool_batch`:
`none` when the line is skipped (fewer than 2 fields) or the file is
omitted (no valid date); otherwise the key/value pair stored in the
result dict. -/
def parseLine (line : String) : Option (String × String) :=
  let parts := tabFields line
  if parts.length < 2 then none
  else
    let filename := pathName (parts.getD 0 "")
    let date_original := validate_date (some (pyStrip (parts.getD 1 "")))
    let date_create :=
      if 3 ≤ parts.length then validate_date (some (pyStrip (parts.getD 2 ""))) else none
    match pyOrStr date_original date_create with
    | some v => some (filename, v)
    | none => none

/-- Insertion into the result dict: overwrite an existing key in place,
else append (Python dicts preserve insertion order). -/
def insertResult (m : List (String × String)) (k v : String) : List (String × String) :=
  if m.any (fun e => e.1 == k) then m.map (fun e => if e.1 == k then (k, v) else e)
  else m ++ [(k, v)]

/-- Loop of `_run_exiftool_batch` over the stdout lines. -/
def runBatchLines (lines : List String) : List (String × String) :=
  lines.foldl
    (fun acc line =>
      match parseLine line with
      | some (k, v) => insertResult acc k v
      | none => acc) []

/-! ### File discovery (`find_files`) -/

/-- One `os.scandir` entry: a direct child of the scanned directory, with
the cached regular-file bit. -/
structure DirEntry where
  name : String
  isFile : Bool
deriving DecidableEq

/-- Extension part of `os.path.splitext(name)`: the segment from the last
dot, unless every character before that dot is itself a dot (so `.hidden`
has no extension). -/
def splitextExt (name : String) : String :=
  match rfindDotIdx name.data with
  | some i =>
    if (name.data.take i).all (fun c => c == '.') then "" else ⟨name.data.drop i⟩
  | none => ""

/-- Filter applied to each scandir entry by `find_files`:
`entry.is_file() and ext.lower() in ALL_EXTENSIONS`. -/
def supportedEntry (e : DirEntry) : Bool :=
  e.isFile && ALL_EXTENSIONS.contains (pyLower (splitextExt e.name))

/-- Sort key comparison of `files.sort(key=lambda f: f.name.casefold())`:
fully case-folded names compared lexicographically by code point. -/
def caseKeyLe (a b : String) : Prop :=
  listLe (casefoldData a.data) (casefoldData b.data) = true

instance : DecidableRel caseKeyLe := fun a b =>
  inferInstanceAs (Decidable (_ = true))

/-- Outcome of reading the input directory: the entry list, or a
`PermissionError`/`OSError` raised by `os.scandir`. -/
inductive ScanResult where
  | ok (entries : List DirEntry)
  | err
deriving DecidableEq

/-- Model of `find_files`: collect supported regular files in scan order,
then sort by case-folded name; an error reading the directory yields an
empty list.  Returned elements are the child names (all returned paths
share the scanned folder). -/
def find_files (scan : ScanResult) : List String :=
  match scan with
  | .err => []
  | .ok entries =>
    let files := entries.foldl
      (fun acc e => if supportedEntry e then acc ++ [e.name] else acc) []
    List.insertionSort caseKeyLe files

/-! ### Move planning (`plan_moves`) -/

/-- Per-file data `plan_moves` reads from a `pathlib.Path` and from
`get_file_mod_date`: name, stem, suffix (original case, leading dot) and
the formatted modification date, `none` when `stat` fails. -/
structure SrcFile where
  name : String
  stem : String
  suffix : String
  modDate : Option String
deriving DecidableEq

/-- Model of the `FileInfo` NamedTuple. -/
structure FileInfo where
  path : SrcFile
  datetime_str : String
  new_filename : String
  dest_folder : List String
deriving DecidableEq

/-- Lookup in a dict modelled as an association list (`dict.get`). -/
def dictGet (m : List (String × String)) (k : String) : Option String :=
  (m.find? (fun e => e.1 == k)).map (fun e => e.2)

/-- Python truthiness of a `str | None` value. -/
def pyTruthy : Option String → Bool
  | some s => !(s == "")
  | none => false

/-- Addition to a Python set modelled as a duplicate-free list. -/
def setAdd (l : List String) (x : String) : List String :=
  if x ∈ l then l else l ++ [x]

/-- Body of the planning loop once a timestamp is fixed: date folder,
destination routing by extension, and the proposed filename. -/
def planBody (output_folder : List String) (move_raw_to_orig : Bool)
    (datetime_str : String) (file : SrcFile) : FileInfo × String :=
  let date_folder : String := ⟨datetime_str.data.take 10⟩
  let date_folder_path := output_folder ++ [date_folder]
  let ext_lower := pyLower file.suffix
  let dest_folder :=
    if JPEG_EXTENSIONS.contains ext_lower then date_folder_path ++ ["!orig"]
    else if move_raw_to_orig then date_folder_path ++ ["!orig"]
    else date_folder_path
  let base_filename := datetime_str ++ "_" ++ file.stem ++ file.suffix
  ({ path := file, datetime_str := datetime_str, new_filename := base_filename,
     dest_folder := dest_folder }, date_folder)

/-- One iteration of the `plan_moves` loop, acting on the accumulator
`(file_infos, date_folders, fallback_count, skipped_count)`. -/
def planStep (output_folder : List String) (move_raw_to_orig : Bool)
    (file_dates : List (String × String))
    (acc : List FileInfo × List String × Nat × Nat) (file : SrcFile) :
    List FileInfo × List String × Nat × Nat :=
  let (infos, folders, fallback_count, skipped_count) := acc
  let fromDict := dictGet file_dates file.name
  if pyTruthy fromDict then
    let (info, d) := planBody output_folder move_raw_to_orig (fromDict.getD "") file
    (infos ++ [info], setAdd folders d, fallback_count, skipped_count)
  else if pyTruthy file.modDate then
    let (info, d) := planBody output_folder move_raw_to_orig (file.modDate.getD "") file
    (infos ++ [info], setAdd folders d, fallback_count + 1, skipped_count)
  else
    (infos, folders, fallback_count, skipped_count + 1)

/-- Model of `plan_moves`: fold the planning loop over the discovered
files, returning `(file_infos, date_folders, fallback_count,
skipped_count)`. -/
def plan_moves (files : List SrcFile) (file_dates : List (String × String))
    (output_folder : List String) (move_raw_to_orig : Bool) :
    List FileInfo × List String × Nat × Nat :=
  files.foldl (planStep output_folder move_raw_to_orig file_dates) ([], [], 0, 0)

/-! ### Unique filename allocation (`UniqueFilenameGenerator`) -/

/-- Destination folders are component lists. -/
abbrev FolderPath := List String

/-- State of a `UniqueFilenameGenerator`: the per-folder cache of existing
filenames and the per-folder set of names allocated this run. -/
structure UniqueFilenameGenerator where
  existingCache : List (FolderPath × List String)
  allocated : List (FolderPath × List String)
deriving DecidableEq

/-- Freshly constructed generator. -/
def emptyGen : UniqueFilenameGenerator := ⟨[], []⟩

/-- Dict lookup keyed by folder. -/
def lookupFolder (m : List (FolderPath × List String)) (f : FolderPath) :
    Option (List String) :=
  (m.find? (fun e => e.1 == f)).map (fun e => e.2)

/-- Model of `_get_existing`: on first query for a folder, list its files
on disk and cache the result (an unreadable or missing folder yields the
empty listing); afterwards serve the cache. -/
def getExisting (disk : FolderPath → List String) (g : UniqueFilenameGenerator)
    (folder : FolderPath) : List String × UniqueFilenameGenerator :=
  match lookupFolder g.existingCache folder with
  | some s => (s, g)
  | none =>
    let s := disk folder
    (s, { g with existingCache := (folder, s) :: g.existingCache })

/-- Model of `_get_allocated`: the allocated-name set for the folder,
created empty on first access. -/
def getAllocated (g : UniqueFilenameGenerator) (folder : FolderPath) :
    List String × UniqueFilenameGenerator :=
  match lookupFolder g.allocated folder with
  | some s => (s, g)
  | none => ([], { g with allocated := (folder, []) :: g.allocated })

/-- Mutation `self._allocated[folder].add(name)`. -/
def addAllocated (m : List (FolderPath × List String)) (f : FolderPath) (n : String) :
    List (FolderPath × List String) :=
  m.map (fun e => if e.1 == f then (e.1, n :: e.2) else e)

/-- Stem/suffix split of `generate`: split at the last dot when it is not
the leading character, else no splittable suffix. -/
def splitStemSuffix (base : String) : String × String :=
  match rfindDotIdx base.data with
  | some i => if 0 < i then (⟨base.data.take i⟩, ⟨base.data.drop i⟩) else (base, "")
  | none => (base, "")

/-- Candidate name `f"{stem}_{counter}{suffix}"`. -/
def probeName (stem suffix : String) (k : Nat) : String :=
  stem ++ "_" ++ Nat.repr k ++ suffix

/-- Probe loop `while counter <= 99999` of `generate`, written with the
remaining number of iterations as structural fuel; when the fuel runs out
the loop has exhausted the ceiling and the current (ceiling-exceeding)
candidate is returned as the fallback. -/
def probe (existing allocated : List String) (stem suffix : String) :
    Nat → Nat → String
  | 0, counter => probeName stem suffix counter
  | fuel + 1, counter =>
    let cand := probeName stem suffix counter
    if cand ∈ existing ∨ cand ∈ allocated then
      probe existing allocated stem suffix fuel (counter + 1)
    else cand

/-- Model of `UniqueFilenameGenerator.generate`: return the base name when
free, else probe `_2`, `_3`, … up to `_99999`; the returned name is always
recorded as allocated.  The probe loop runs for the counters 2 … 99999,
hence fuel 99998; on exhaustion the counter stands at 100000. -/
def generate (disk : FolderPath → List String) (g : UniqueFilenameGenerator)
    (dest_folder : FolderPath) (base_filename : String) :
    String × UniqueFilenameGenerator :=
  let (existing, g1) := getExisting disk g dest_folder
  let (allocated, g2) := getAllocated g1 dest_folder
  if base_filename ∉ existing ∧ base_filename ∉ allocated then
    (base_filename,
     { g2 with allocated := addAllocated g2.allocated dest_folder base_filename })
  else
    let (stem, suffix) := splitStemSuffix base_filename
    let name := probe existing allocated stem suffix 99998 2
    (name, { g2 with allocated := addAllocated g2.allocated dest_folder name })

/-- Iterated allocation of the same base name: the outputs of `n`
successive `generate` calls against one folder, with the generator state
threaded through. -/
def allocN (disk : FolderPath → List String) (folder : FolderPath) (base : String) :
    Nat → List String × UniqueFilenameGenerator
  | 0 => ([], emptyGen)
  | n + 1 =>
    let (outs, g) := allocN disk folder base n
    let (name, g') := generate disk g folder base
    (outs ++ [name], g')

/-! ### Move execution (`MoveResult`, `move_single_file`) -/

/-- Outcome of one OS-level move primitive: normal return, or a raised
`OSError`/`shutil.Error` carrying its message. -/
inductive OsOutcome where
  | ok
  | err (msg : String)
deriving DecidableEq

/-- Model of the `MoveResult` NamedTuple with its field defaults. -/
structure MoveResult where
  success : Bool
  source_name : String
  dest_path : Option FolderPath := none
  error : Option String := none
  is_duplicate : Bool := false
deriving DecidableEq

/-- Last component of a path (`source.name`). -/
def lastName (p : FolderPath) : String := p.getLastD ""

/-- Model of `move_single_file`: try `os.rename`; on `OSError` fall back to
`shutil.move`; a failure of the fallback is caught and reported in the
returned `MoveResult`, never propagated. -/
def move_single_file (source : FolderPath) (dest_path : FolderPath)
    (is_duplicate : Bool) (renameOutcome fallbackOutcome : OsOutcome) : MoveResult :=
  match renameOutcome with
  | .ok =>
    { success := true, source_name := lastName source,
      dest_path := some dest_path, is_duplicate := is_duplicate }
  | .err _ =>
    match fallbackOutcome with
    | .ok =>
      { success := true, source_name := lastName source,
        dest_path := some dest_path, is_duplicate := is_duplicate }
    | .err e =>
      { success := false, source_name := lastName source, error := some e }

/-! ### Path safety validation (`validate_paths`) -/

/-- Success condition of `output.relative_to(input)` for resolved absolute
paths: the input components lead the output components. -/
def hasBase : List String → List String → Bool
  | _, [] => true
  | [], _ :: _ => false
  | a :: as, b :: bs => a == b && hasBase as bs

/-- Model of `validate_paths` on resolved absolute component lists: equal
folders are fine; an output inside the input is rejected; anything else is
fine. -/
def validate_paths (input_folder output_folder : List String) : Bool :=
  if output_folder = input_folder then true
  else if hasBase output_folder input_folder then false
  else true

/-! ### Filesystem model and the processing pipeline (`process_files`, `main`) -/

/-- Filesystem state: the set of regular files and the set of directories,
each named by its absolute component path. -/
structure FS where
  files : List FolderPath
  dirs : List FolderPath
deriving DecidableEq

/-- Direct children of a directory as `os.scandir` entries: regular-file
children first, then subdirectories (the scan order is unspecified by the
OS; discovery sorts afterwards). -/
def scandirEntries (fs : FS) (dir : FolderPath) : List DirEntry :=
  (fs.files.filter (fun p => p.length = dir.length + 1 && p.dropLast == dir)).map
    (fun p => { name := lastName p, isFile := true })
  ++ (fs.dirs.filter (fun p => p.length = dir.length + 1 && p.dropLast == dir)).map
    (fun p => { name := lastName p, isFile := false })

/-- Regular-file child names of a folder, as `_get_existing` collects them. -/
def diskFileNames (fs : FS) (dir : FolderPath) : List String :=
  ((scandirEntries fs dir).filter (fun e => e.isFile)).map (fun e => e.name)

/-- Idempotent directory creation (`mkdir(exist_ok=True)`). -/
def addDir (dirs : List FolderPath) (d : FolderPath) : List FolderPath :=
  if d ∈ dirs then dirs else dirs ++ [d]

/-- Directory creation with parents (`mkdir(parents=True, exist_ok=True)`):
every prefix of the path becomes a directory. -/
def mkdirParents (dirs : List FolderPath) (p : FolderPath) : List FolderPath :=
  p.inits.foldl addDir dirs

/-- Model of `ensure_folders_exist`: create each date folder (with parents)
and its `!jpg` and `!orig` subfolders. -/
def ensure_folders_exist (fs : FS) (output_folder : FolderPath)
    (date_folders : List String) : FS :=
  date_folders.foldl
    (fun fs d =>
      let date_path := output_folder ++ [d]
      let dirs1 := mkdirParents fs.dirs date_path
      let dirs2 := addDir dirs1 (date_path ++ ["!jpg"])
      let dirs3 := addDir dirs2 (date_path ++ ["!orig"])
      { fs with dirs := dirs3 }) fs

/-- One planned move handed to the executor. -/
structure MoveTask where
  source : FolderPath
  dest : FolderPath
  is_duplicate : Bool
deriving DecidableEq

/-- Outcome of `os.rename(source, dest)` in the filesystem model: it
succeeds exactly when the source file exists and the destination parent
directory exists. -/
def fsRenameOutcome (fs : FS) (source dest : FolderPath) : OsOutcome :=
  if source ∈ fs.files ∧ dest.dropLast ∈ fs.dirs then .ok
  else .err "No such file or directory"

/-- Effect of a successful move on the filesystem. -/
def applyMove (fs : FS) (source dest : FolderPath) : FS :=
  { fs with files := fs.files.erase source ++ [dest] }

/-- Execution of the move tasks, counting successes and errors.  The pool
runs moves concurrently on disjoint destination paths; since per-task
results are independent and aggregation is order-insensitive, the model
executes them sequentially. -/
def execMoves (fs : FS) : List MoveTask → FS × Nat × Nat
  | [] => (fs, 0, 0)
  | t :: ts =>
    let out := fsRenameOutcome fs t.source t.dest
    let r := move_single_file t.source t.dest t.is_duplicate out out
    if r.success then
      let step := execMoves (applyMove fs t.source t.dest) ts
      (step.1, step.2.1 + 1, step.2.2)
    else
      let step := execMoves fs ts
      (step.1, step.2.1, step.2.2 + 1)

/-- Per-file fields read from a discovered name: the stem/suffix split of
`pathlib` and the modification-date fallback from the environment. -/
def pathSuffix (name : String) : String :=
  match rfindDotIdx name.data with
  | some i => if 0 < i ∧ i + 1 < name.data.length then ⟨name.data.drop i⟩ else ""
  | none => ""

/-- Stem of a file name (`pathlib.Path.stem`): the name minus its suffix. -/
def pathStem (name : String) : String :=
  ⟨name.data.take (name.data.length - (pathSuffix name).data.length)⟩

/-- Assembly of the planner view of one discovered file. -/
def mkSrcFile (modDates : String → Option String) (name : String) : SrcFile :=
  { name := name, stem := pathStem name, suffix := pathSuffix name,
    modDate := modDates name }

/-- Sequential allocation pass of `process_files`: one `generate` call per
planned file, threading the generator, yielding the move tasks. -/
def buildTasks (disk : FolderPath → List String) (input_folder : FolderPath) :
    UniqueFilenameGenerator → List FileInfo → List MoveTask
  | _, [] => []
  | g, info :: rest =>
    let step := generate disk g info.dest_folder info.new_filename
    { source := input_folder ++ [info.path.name],
      dest := info.dest_folder ++ [step.1],
      is_duplicate := step.1 != info.new_filename }
      :: buildTasks disk input_folder step.2 rest

/-- Model of `process_files`: discover, plan, pre-create folders (skipped
in dry-run), allocate names, then either print the plan (dry-run: the
filesystem is untouched and the task count is reported as the success
count) or execute the moves. -/
def process_files (fs : FS) (exifDates : List (String × String))
    (modDates : String → Option String) (input_folder output_folder : FolderPath)
    (move_raw_to_orig : Bool) (dry_run : Bool) : FS × Nat × Nat :=
  let names := find_files (.ok (scandirEntries fs input_folder))
  if names = [] then (fs, 0, 0)
  else
    let files := names.map (mkSrcFile modDates)
    let planned := plan_moves files exifDates output_folder move_raw_to_orig
    let file_infos := planned.1
    let date_folders := planned.2.1
    if file_infos = [] then (fs, 0, 0)
    else
      let fs1 := if dry_run then fs else ensure_folders_exist fs output_folder date_folders
      let tasks := buildTasks (diskFileNames fs1) input_folder emptyGen file_infos
      if dry_run then (fs, tasks.length, 0)
      else execMoves fs1 tasks

/-- Model of the tail of `main` around `process_files`: the output folder
is created unconditionally (`output_folder.mkdir(parents=True,
exist_ok=True)`) before processing, in dry-run mode as well. -/
def mainRun (fs : FS) (exifDates : List (String × String))
    (modDates : String → Option String) (input_folder output_folder : FolderPath)
    (move_raw_to_orig : Bool) (dry_run : Bool) : FS × Nat × Nat :=
  let fs0 : FS := { fs with dirs := mkdirParents fs.dirs output_folder }
  process_files fs0 exifDates modDates input_folder output_folder move_raw_to_orig dry_run

/-! ### Exit status of `main` -/

/-- Outcome of a completed `process_files` run together with the interrupt
flag observed afterwards. -/
structure RunOutcome where
  success : Nat
  errors : Nat
  interrupted : Bool
deriving DecidableEq

/-- Exit-status logic of `main` after argument parsing: precondition
failures return 1, an interrupted run returns 130 regardless of the error
count, and a completed run returns 0 exactly when no per-file error
occurred. -/
def mainExit (input_ok exiftool_ok paths_ok : Bool) (run : RunOutcome) : Nat :=
  if !input_ok then 1
  else if !exiftool_ok then 1
  else if !paths_ok then 1
  else if run.interrupted then 130
  else if run.errors = 0 then 0 else 1

/-! ## Theorems -/

/-! ### Decimal rendering of the duplicate counter is injective -/

theorem digitChar_decode : ∀ m, m < 10 → (Nat.digitChar m).toNat - 48 = m := by decide

theorem toDigitsCore_acc (fuel : Nat) : ∀ (n : Nat) (ds : List Char),
    Nat.toDigitsCore 10 fuel n ds = Nat.toDigitsCore 10 fuel n [] ++ ds := by
  induction fuel with
  | zero => intro n ds; simp [Nat.toDigitsCore]
  | succ fuel ih =>
    intro n ds
    simp only [Nat.toDigitsCore]
    by_cases h : n / 10 = 0
    · simp [h]
    · simp only [h, if_false]
      rw [ih (n / 10) ((n % 10).digitChar :: ds), ih (n / 10) [(n % 10).digitChar]]
      simp

theorem foldl_dec_single (a : Nat) (c : Char) :
    List.foldl (fun a c => 10 * a + (c.toNat - 48)) a [c] = 10 * a + (c.toNat - 48) := rfl

theorem decDigits_toDigitsCore (fuel : Nat) : ∀ n, n < fuel →
    decDigits (Nat.toDigitsCore 10 fuel n []) = n := by
  induction fuel with
  | zero => intro n hn; omega
  | succ fuel ih =>
    intro n hn
    simp only [Nat.toDigitsCore]
    by_cases h : n / 10 = 0
    · have hlt : n < 10 := (Nat.div_eq_zero_iff (by omega)).mp h
      simp only [h, if_true]
      show decDigits [(n % 10).digitChar] = n
      unfold decDigits
      rw [foldl_dec_single]
      rw [digitChar_decode (n % 10) (Nat.mod_lt _ (by omega))]
      omega
    · simp only [h, if_false]
      have hn0 : 0 < n := by
        rcases Nat.eq_zero_or_pos n with h0 | h0
        · subst h0; simp at h
        · exact h0
      have hdiv : n / 10 < n := Nat.div_lt_self hn0 (by omega)
      have hfuel : n / 10 < fuel := by omega
      rw [toDigitsCore_acc]
      unfold decDigits
      rw [List.foldl_append]
      have hcore : List.foldl (fun a c => 10 * a + (c.toNat - 48)) 0
          (Nat.toDigitsCore 10 fuel (n / 10) []) = n / 10 := ih (n / 10) hfuel
      rw [hcore, foldl_dec_single]
      rw [digitChar_decode (n % 10) (Nat.mod_lt _ (by omega))]
      omega

theorem decDigits_repr (n : Nat) : decDigits (Nat.repr n).data = n := by
  have hrepr : Nat.repr n = (Nat.toDigitsCore 10 (n + 1) n []).asString := rfl
  have hdata : ((Nat.toDigitsCore 10 (n + 1) n []).asString).data
      = Nat.toDigitsCore 10 (n + 1) n [] := rfl
  rw [hrepr, hdata]
  exact decDigits_toDigitsCore (n + 1) n (Nat.lt_succ_self n)

theorem repr_injective : Function.Injective Nat.repr := by
  intro a b h
  have hd : decDigits (Nat.repr a).data = decDigits (Nat.repr b).data := by rw [h]
  rwa [decDigits_repr, decDigits_repr] at hd

theorem repr_data_ne_nil (n : Nat) : (Nat.repr n).data ≠ [] := by
  intro h
  have h0 : n = 0 := by
    have hdec := decDigits_repr n
    rw [h] at hdec
    simpa [decDigits] using hdec.symm
  subst h0
  have hz : (Nat.repr 0).data = ['0'] := rfl
  rw [hz] at h
  exact List.cons_ne_nil _ _ h

theorem string_eq_of_data {a b : String} (h : a.data = b.data) : a = b := by
  cases a; cases b; exact congrArg String.mk h

/-! ### The lexicographic key order is a total preorder -/

theorem listLe_refl : ∀ l, listLe l l = true := by
  intro l
  induction l with
  | nil => rfl
  | cons a as ih => simp [listLe, ih]

theorem listLe_total : ∀ a b, listLe a b = true ∨ listLe b a = true := by
  intro a
  induction a with
  | nil => intro b; left; rfl
  | cons x xs ih =>
    intro b
    cases b with
    | nil => right; rfl
    | cons y ys =>
      by_cases hxy : x < y
      · left; simp [listLe, hxy]
      · by_cases hyx : y < x
        · right; simp [listLe, hyx]
        · rcases ih ys with h | h
          · left; simp [listLe, hxy, hyx, h]
          · right; simp [listLe, hxy, hyx, h]

theorem listLe_trans : ∀ a b c, listLe a b = true → listLe b c = true →
    listLe a c = true := by
  intro a
  induction a with
  | nil => intro b c _ _; rfl
  | cons x xs ih =>
    intro b c hab hbc
    cases b with
    | nil => simp [listLe] at hab
    | cons y ys =>
      cases c with
      | nil => simp [listLe] at hbc
      | cons z zs =>
        simp only [listLe] at hab hbc ⊢
        by_cases hxy : x < y
        · by_cases hyz : y < z
          · have hxz : x < z := Nat.lt_trans hxy hyz
            simp [hxz]
          · by_cases hzy : z < y
            · simp [hyz, hzy] at hbc
            · have hxz : x < z := by omega
              simp [hxz]
        · by_cases hyx : y < x
          · simp [hxy, hyx] at hab
          · by_cases hyz : y < z
            · have hxz : x < z := by omega
              simp [hxz]
            · by_cases hzy : z < y
              · simp [hyz, hzy] at hbc
              · have hxz : ¬ x < z := by omega
                have hzx : ¬ z < x := by omega
                simp only [hxy, hyx, if_false] at hab
                simp only [hyz, hzy, if_false] at hbc
                simp [hxz, hzx, ih ys zs hab hbc]

/-! ### C3 — timestamp validation -/

theorem dateShape_ne_nil {l : List Char} (h : dateShape l = true) : l ≠ [] := by
  intro hnil
  subst hnil
  simp [dateShape] at h

theorem ne_empty_of_data_ne_nil {s : String} (h : s.data ≠ []) : s ≠ "" := by
  intro hs
  apply h
  rw [hs]

/-- C3 counterexample: a canonical timestamp followed by one trailing
newline does not match the exact shape `^\d{4}_\d{2}_\d{2}_\d{6}$` as the
claim reads it (it has an extra trailing character), yet `validate_date`
returns it unchanged, because Python `$` also matches just before a final
newline. -/
theorem C3_counterexample :
    validate_date (some "2024_01_15_143052\n") = some "2024_01_15_143052\n" ∧
    dateShape ("2024_01_15_143052\n").data = false := by
  constructor
  · decide
  · decide

/-- C3 (amended): `validate_date` returns the string unchanged exactly
when it matches the canonical shape `\d{4}_\d{2}_\d{2}_\d{6}` — with `\d`
matching any Unicode decimal digit, Python's default — or is such a match
followed by a single trailing newline, which Python `re` accepts under
the `$` anchor; every other string (the unknown sentinel, the empty
string, whitespace-only strings, any other extra characters) and the
`None` input yield absent. -/
theorem C3_validate_date_shape (s : String) :
    (validate_date (some s) = some s ∨ validate_date (some s) = none) ∧
    (validate_date (some s) = some s ↔
      (dateShape s.data = true ∨
        (s.data.getLast? = some '\n' ∧ dateShape s.data.dropLast = true))) ∧
    validate_date none = none := by
  refine ⟨?_, ?_, rfl⟩
  · simp only [validate_date]
    by_cases h : s ≠ "" ∧ pyMatchDate s = true
    · left; simp [h]
    · right; simp [h]
  · simp only [validate_date]
    constructor
    · intro h
      by_cases hc : s ≠ "" ∧ pyMatchDate s = true
      · have hm := hc.2
        unfold pyMatchDate at hm
        rw [Bool.or_eq_true] at hm
        rcases hm with hm | hm
        · exact Or.inl hm
        · cases hg : s.data.getLast? with
          | none => rw [hg] at hm; simp at hm
          | some c =>
            rw [hg] at hm
            simp only [Bool.and_eq_true, beq_iff_eq] at hm
            exact Or.inr ⟨by rw [hm.1], hm.2⟩
      · simp [hc] at h
    · intro h
      have hdata : s.data ≠ [] := by
        rcases h with h | h
        · exact dateShape_ne_nil h
        · intro hnil
          rw [hnil] at h
          simp at h
      have hne : s ≠ "" := ne_empty_of_data_ne_nil hdata
      have hm : pyMatchDate s = true := by
        unfold pyMatchDate
        rw [Bool.or_eq_true]
        rcases h with h | h
        · exact Or.inl h
        · right
          rw [h.1]
          simp [h.2]
      simp [hne, hm]

/-! ### C5 — path safety validation -/

theorem hasBase_iff : ∀ o i : List String, hasBase o i = true ↔ ∃ rest, o = i ++ rest := by
  intro o i
  induction i generalizing o with
  | nil =>
    cases o with
    | nil => simp [hasBase]
    | cons a as => simp [hasBase]
  | cons b bs ih =>
    cases o with
    | nil =>
      simp only [hasBase]
      constructor
      · intro h; cases h
      · rintro ⟨rest, h⟩; cases h
    | cons a as =>
      simp only [hasBase, Bool.and_eq_true, beq_iff_eq]
      rw [ih as]
      constructor
      · rintro ⟨rfl, rest, rfl⟩
        exact ⟨rest, rfl⟩
      · rintro ⟨rest, h⟩
        rw [List.cons_append] at h
        injection h with h1 h2
        exact ⟨h1, rest, h2⟩

/-- C5: `validate_paths` returns `False` exactly when the output folder is
a strict descendant of the input folder (the output path extends the input
path by at least one component); in particular it rejects
(input=/a, output=/a/b), accepts equal input and output, and accepts an
input nested inside the output. -/
theorem C5_validate_paths :
    (∀ i o : List String,
      validate_paths i o = false ↔ ∃ rest, rest ≠ [] ∧ o = i ++ rest) ∧
    validate_paths ["a"] ["a", "b"] = false ∧
    validate_paths ["a"] ["a"] = true ∧
    validate_paths ["a", "b"] ["a"] = true := by
  refine ⟨?_, by decide, by decide, by decide⟩
  intro i o
  unfold validate_paths
  by_cases heq : o = i
  · subst heq
    simp only [if_pos rfl]
    constructor
    · intro h; cases h
    · rintro ⟨rest, hne, hr⟩
      have hlen := congrArg List.length hr
      rw [List.length_append] at hlen
      have hzero : rest.length = 0 := by omega
      exact absurd (List.eq_nil_of_length_eq_zero hzero) hne
  · simp only [heq, if_false]
    by_cases hb : hasBase o i = true
    · simp only [hb, if_true]
      constructor
      · intro _
        rcases (hasBase_iff o i).mp hb with ⟨rest, hr⟩
        refine ⟨rest, ?_, hr⟩
        intro hnil
        apply heq
        rw [hr, hnil, List.append_nil]
      · intro _; trivial
    · have hb' : hasBase o i = false := by
        cases h : hasBase o i
        · rfl
        · exact absurd h hb
      simp only [hb', if_false]
      constructor
      · intro h; cases h
      · rintro ⟨rest, hne, hr⟩
        exfalso
        apply hb
        exact (hasBase_iff o i).mpr ⟨rest, hr⟩

/-! ### C6 — exit status of `main` -/

/-- C6: the exit status is 0 exactly for a completed run with zero
per-file errors, 130 exactly for an interrupted run (even when per-file
errors also occurred), and 1 exactly when a precondition failed (missing
input directory, exiftool unavailable, unsafe paths) or the run completed
with at least one per-file error; the three outcomes are mutually
distinct. -/
theorem C6_main_exit_status (d e p : Bool) (r : RunOutcome) :
    (mainExit d e p r = 0 ↔
      (d = true ∧ e = true ∧ p = true ∧ r.interrupted = false ∧ r.errors = 0)) ∧
    (mainExit d e p r = 130 ↔
      (d = true ∧ e = true ∧ p = true ∧ r.interrupted = true)) ∧
    (mainExit d e p r = 1 ↔
      (d = false ∨ e = false ∨ p = false ∨
        (r.interrupted = false ∧ 0 < r.errors))) := by
  obtain ⟨s, errs, intr⟩ := r
  by_cases herr : errs = 0 <;>
    cases d <;> cases e <;> cases p <;> cases intr <;>
      simp [mainExit, herr] <;> omega

/-! ### C10 — totality and result invariant of `move_single_file` -/

/-- C10: `move_single_file` is total over filesystem errors — every
outcome of the rename and of the copy fallback yields a returned
`MoveResult`, and that result satisfies: on success the destination is the
realized path and the error is `None`; on failure the error is a non-`None`
message and the destination is `None`. -/
theorem C10_move_single_file_result (source dest : FolderPath) (dup : Bool)
    (r1 r2 : OsOutcome) :
    ((move_single_file source dest dup r1 r2).success = true →
      (move_single_file source dest dup r1 r2).dest_path = some dest ∧
      (move_single_file source dest dup r1 r2).error = none) ∧
    ((move_single_file source dest dup r1 r2).success = false →
      (move_single_file source dest dup r1 r2).error ≠ none ∧
      (move_single_file source dest dup r1 r2).dest_path = none) := by
  cases r1 <;> cases r2 <;> simp [move_single_file]

/-- C10 witness: a concrete doubly-failing move reports a message and no
destination. -/
theorem C10_witness :
    (move_single_file ["in", "a.jpg"] ["out", "a.jpg"] false
        (OsOutcome.err "disk full") (OsOutcome.err "disk full")).error ≠ none ∧
    (move_single_file ["in", "a.jpg"] ["out", "a.jpg"] false
        (OsOutcome.err "disk full") (OsOutcome.err "disk full")).dest_path = none :=
  (C10_move_single_file_result ["in", "a.jpg"] ["out", "a.jpg"] false
    (OsOutcome.err "disk full") (OsOutcome.err "disk full")).2 (by decide)

/-! ### C7 — exiftool output parsing -/

theorem validate_date_ne_empty {x : Option String} {d : String}
    (h : validate_date x = some d) : d ≠ "" := by
  cases x with
  | none => simp [validate_date] at h
  | some s =>
    simp only [validate_date] at h
    by_cases hc : s ≠ "" ∧ pyMatchDate s = true
    · rw [if_pos hc] at h
      injection h with h
      rw [← h]
      exact hc.1
    · rw [if_neg hc] at h
      cases h

/-- C7: per output line of the exiftool batch, a line with fewer than two
tab-separated fields is skipped; otherwise the base filename component of
the first field is mapped to the validated captured-date field when that
validates, else to the validated created-date field (absent when the line
has only two fields), and the file is omitted when neither validates. -/
theorem C7_exiftool_line_parsing (line : String) :
    ((tabFields line).length < 2 → parseLine line = none) ∧
    (2 ≤ (tabFields line).length →
      (∀ d, validate_date (some (pyStrip ((tabFields line).getD 1 ""))) = some d →
        parseLine line = some (pathName ((tabFields line).getD 0 ""), d)) ∧
      (∀ d, validate_date (some (pyStrip ((tabFields line).getD 1 ""))) = none →
        (if 3 ≤ (tabFields line).length
          then validate_date (some (pyStrip ((tabFields line).getD 2 "")))
          else none) = some d →
        parseLine line = some (pathName ((tabFields line).getD 0 ""), d)) ∧
      (validate_date (some (pyStrip ((tabFields line).getD 1 ""))) = none →
        (if 3 ≤ (tabFields line).length
          then validate_date (some (pyStrip ((tabFields line).getD 2 "")))
          else none) = none →
        parseLine line = none)) := by
  constructor
  · intro h
    unfold parseLine
    rw [if_pos h]
  · intro h2
    have hlt : ¬ (tabFields line).length < 2 := by omega
    refine ⟨?_, ?_, ?_⟩
    · intro d hcapt
      unfold parseLine
      rw [if_neg hlt]
      simp only [hcapt]
      have hd := validate_date_ne_empty hcapt
      simp [pyOrStr, hd]
    · intro d hcapt hcrea
      unfold parseLine
      rw [if_neg hlt]
      simp only [hcapt, hcrea]
      simp [pyOrStr]
    · intro hcapt hcrea
      unfold parseLine
      rw [if_neg hlt]
      simp only [hcapt, hcrea]
      simp [pyOrStr]

/-- C7 witness: a concrete three-field line whose captured field is the
exiftool unknown placeholder and whose created field is valid maps the
file to the created date. -/
theorem C7_witness :
    parseLine "photo.jpg\t-\t2024_01_15_143052"
      = some ("photo.jpg", "2024_01_15_143052") :=
  (((C7_exiftool_line_parsing "photo.jpg\t-\t2024_01_15_143052").2
    (by decide)).2.1) "2024_01_15_143052" (by decide) (by decide)

/-! ### C2 and C9 — move planning -/

theorem raw_not_jpeg {x : String} (h : RAW_EXTENSIONS.contains x = true) :
    JPEG_EXTENSIONS.contains x = false := by
  have hm : x ∈ RAW_EXTENSIONS := by
    simpa [List.contains] using h
  simp only [RAW_EXTENSIONS, List.mem_cons, List.mem_singleton] at hm
  rcases hm with rfl | rfl | rfl | rfl | rfl | rfl | rfl | h0
  · decide
  · decide
  · decide
  · decide
  · decide
  · decide
  · decide
  · simp at h0

theorem planBody_fields (out : List String) (flag : Bool) (dt : String) (f : SrcFile) :
    (planBody out flag dt f).1.datetime_str = dt ∧
    (planBody out flag dt f).1.path = f ∧
    (JPEG_EXTENSIONS.contains (pyLower f.suffix) = true →
      (planBody out flag dt f).1.dest_folder
        = out ++ [(⟨dt.data.take 10⟩ : String), "!orig"]) ∧
    (JPEG_EXTENSIONS.contains (pyLower f.suffix) = false →
      (planBody out flag dt f).1.dest_folder
        = if flag then out ++ [(⟨dt.data.take 10⟩ : String), "!orig"]
          else out ++ [(⟨dt.data.take 10⟩ : String)]) := by
  unfold planBody
  by_cases h : JPEG_EXTENSIONS.contains (pyLower f.suffix) = true <;>
    cases flag <;> simp [h]

theorem planStep_cases (out : List String) (flag : Bool)
    (fd : List (String × String))
    (acc : List FileInfo × List String × Nat × Nat) (f : SrcFile) :
    (∃ dt, dt ≠ "" ∧
      (planStep out flag fd acc f).1 = acc.1 ++ [(planBody out flag dt f).1] ∧
      (planStep out flag fd acc f).2.2.2 = acc.2.2.2 ∧
      ((planStep out flag fd acc f).2.2.1 = acc.2.2.1 ∨
        (planStep out flag fd acc f).2.2.1 = acc.2.2.1 + 1)) ∨
    ((planStep out flag fd acc f).1 = acc.1 ∧
      (planStep out flag fd acc f).2.2.2 = acc.2.2.2 + 1 ∧
      (planStep out flag fd acc f).2.2.1 = acc.2.2.1) := by
  obtain ⟨infos, folders, fb, sk⟩ := acc
  by_cases h1 : pyTruthy (dictGet fd f.name) = true
  · left
    refine ⟨(dictGet fd f.name).getD "", ?_, ?_, ?_, Or.inl ?_⟩
    · cases hy : dictGet fd f.name with
      | none => rw [hy] at h1; simp [pyTruthy] at h1
      | some s =>
        rw [hy] at h1
        simp only [pyTruthy, Bool.not_eq_true', beq_eq_false_iff_ne, ne_eq] at h1
        simpa [hy] using h1
    · simp [planStep, h1]
    · simp [planStep, h1]
    · simp [planStep, h1]
  · by_cases h2 : pyTruthy f.modDate = true
    · left
      refine ⟨f.modDate.getD "", ?_, ?_, ?_, Or.inr ?_⟩
      · cases hy : f.modDate with
        | none => rw [hy] at h2; simp [pyTruthy] at h2
        | some s =>
          rw [hy] at h2
          simp only [pyTruthy, Bool.not_eq_true', beq_eq_false_iff_ne, ne_eq] at h2
          simpa [hy] using h2
      · simp [planStep, h1, h2]
      · simp [planStep, h1, h2]
      · simp [planStep, h1, h2]
    · right
      refine ⟨?_, ?_, ?_⟩ <;> simp [planStep, h1, h2]

theorem plan_foldl_invariant (out : List String) (flag : Bool)
    (fd : List (String × String)) (P : FileInfo → Prop)
    (hP : ∀ dt f, dt ≠ "" → P (planBody out flag dt f).1) :
    ∀ (files : List SrcFile) (acc : List FileInfo × List String × Nat × Nat),
      (∀ i ∈ acc.1, P i) →
      (∀ i ∈ (files.foldl (planStep out flag fd) acc).1, P i) := by
  intro files
  induction files with
  | nil => intro acc h; simpa using h
  | cons f fs ih =>
    intro acc hacc
    rw [List.foldl_cons]
    apply ih
    rcases planStep_cases out flag fd acc f with ⟨dt, hdt, hinfos, _, _⟩ | ⟨hinfos, _, _⟩
    · rw [hinfos]
      intro i hi
      rcases List.mem_append.mp hi with hi | hi
      · exact hacc i hi
      · rw [List.mem_singleton.mp hi]
        exact hP dt f hdt
    · rw [hinfos]
      exact hacc

theorem plan_foldl_counts (out : List String) (flag : Bool)
    (fd : List (String × String)) :
    ∀ (files : List SrcFile) (acc : List FileInfo × List String × Nat × Nat),
      (files.foldl (planStep out flag fd) acc).1.length +
          (files.foldl (planStep out flag fd) acc).2.2.2
        = acc.1.length + acc.2.2.2 + files.length ∧
      (files.foldl (planStep out flag fd) acc).2.2.1 + acc.1.length
        ≤ acc.2.2.1 + (files.foldl (planStep out flag fd) acc).1.length := by
  intro files
  induction files with
  | nil => intro acc; simp
  | cons f fs ih =>
    intro acc
    rw [List.foldl_cons]
    have hstep := planStep_cases out flag fd acc f
    have hrec := ih (planStep out flag fd acc f)
    obtain ⟨hr1, hr2⟩ := hrec
    rcases hstep with ⟨dt, _, hinfos, hsk, hfb⟩ | ⟨hinfos, hsk, hfb⟩
    · have hlen : (planStep out flag fd acc f).1.length = acc.1.length + 1 := by
        rw [hinfos]; simp
      simp only [List.length_cons]
      rcases hfb with hfb | hfb <;> constructor <;> omega
    · have hlen : (planStep out flag fd acc f).1.length = acc.1.length := by
        rw [hinfos]
      simp only [List.length_cons]
      constructor <;> omega

/-- C2: every planned file with a JPEG-like extension (case-insensitive)
is routed to `{output}/{date}/!orig` regardless of the RAW-routing flag,
and every planned file with a RAW-like extension is routed to
`{output}/{date}/!orig` when the flag is set, else to the plain date
folder `{output}/{date}`, where the date is the first 10 characters of
the resolved timestamp. -/
theorem C2_plan_moves_routing (files : List SrcFile) (fd : List (String × String))
    (out : List String) (flag : Bool) :
    ∀ info ∈ (plan_moves files fd out flag).1,
      (JPEG_EXTENSIONS.contains (pyLower info.path.suffix) = true →
        info.dest_folder
          = out ++ [(⟨info.datetime_str.data.take 10⟩ : String), "!orig"]) ∧
      (RAW_EXTENSIONS.contains (pyLower info.path.suffix) = true →
        info.dest_folder
          = if flag then out ++ [(⟨info.datetime_str.data.take 10⟩ : String), "!orig"]
            else out ++ [(⟨info.datetime_str.data.take 10⟩ : String)]) := by
  unfold plan_moves
  apply plan_foldl_invariant
  · intro dt f _
    obtain ⟨hdt, hpath, hjpeg, hraw⟩ := planBody_fields out flag dt f
    constructor
    · intro hj
      rw [hpath] at hj
      rw [hdt, hjpeg hj]
    · intro hr
      rw [hpath] at hr
      have hnj := raw_not_jpeg hr
      rw [hdt, hraw hnj]
  · intro i hi
    simp at hi

/-- C2 witness: one concrete JPEG file with a known timestamp is routed to
the `!orig` subfolder of its date folder. -/
theorem C2_witness :
    ({ path := { name := "a.jpg", stem := "a", suffix := ".jpg", modDate := none },
       datetime_str := "2024_01_15_143052",
       new_filename := "2024_01_15_143052_a.jpg",
       dest_folder := ["out", "2024_01_15", "!orig"] } : FileInfo).dest_folder
      = ["out"] ++ [(⟨("2024_01_15_143052" : String).data.take 10⟩ : String), "!orig"] :=
  (C2_plan_moves_routing
    [{ name := "a.jpg", stem := "a", suffix := ".jpg", modDate := none }]
    [("a.jpg", "2024_01_15_143052")] ["out"] false
    { path := { name := "a.jpg", stem := "a", suffix := ".jpg", modDate := none },
      datetime_str := "2024_01_15_143052",
      new_filename := "2024_01_15_143052_a.jpg",
      dest_folder := ["out", "2024_01_15", "!orig"] }
    (by decide)).1 (by decide)

/-- C9: `plan_moves` partitions its input — the number of returned
`FileInfo` entries plus the skipped count equals the number of input
files, the fallback count never exceeds the number of returned entries,
and every returned entry carries a nonempty timestamp string. -/
theorem C9_plan_moves_partition (files : List SrcFile) (fd : List (String × String))
    (out : List String) (flag : Bool) :
    (plan_moves files fd out flag).1.length + (plan_moves files fd out flag).2.2.2
        = files.length ∧
    (plan_moves files fd out flag).2.2.1 ≤ (plan_moves files fd out flag).1.length ∧
    ∀ info ∈ (plan_moves files fd out flag).1, info.datetime_str ≠ "" := by
  have hc := plan_foldl_counts out flag fd files ([], [], 0, 0)
  refine ⟨?_, ?_, ?_⟩
  · simpa using hc.1
  · have := hc.2
    simpa using this
  · unfold plan_moves
    apply plan_foldl_invariant
    · intro dt f hdt
      rw [(planBody_fields out flag dt f).1]
      exact hdt
    · intro i hi
      simp at hi

/-- C9 witness: a batch of three concrete files — one with exiftool
metadata, one resolved by the modification-time fallback, one with no
date at all — yields two planned entries, one skip, one fallback, and
nonempty timestamps. -/
theorem C9_witness :
    ((plan_moves
        [{ name := "a.jpg", stem := "a", suffix := ".jpg", modDate := none },
         { name := "b.cr3", stem := "b", suffix := ".cr3",
           modDate := some "2023_02_02_020202" },
         { name := "c.jpg", stem := "c", suffix := ".jpg", modDate := none }]
        [("a.jpg", "2024_01_15_143052")] ["out"] false).1.length +
      (plan_moves
        [{ name := "a.jpg", stem := "a", suffix := ".jpg", modDate := none },
         { name := "b.cr3", stem := "b", suffix := ".cr3",
           modDate := some "2023_02_02_020202" },
         { name := "c.jpg", stem := "c", suffix := ".jpg", modDate := none }]
        [("a.jpg", "2024_01_15_143052")] ["out"] false).2.2.2 = 3) ∧
    ({ path := { name := "a.jpg", stem := "a", suffix := ".jpg", modDate := none },
       datetime_str := "2024_01_15_143052",
       new_filename := "2024_01_15_143052_a.jpg",
       dest_folder := ["out", "2024_01_15", "!orig"] } : FileInfo).datetime_str ≠ "" :=
  ⟨(C9_plan_moves_partition
      [{ name := "a.jpg", stem := "a", suffix := ".jpg", modDate := none },
       { name := "b.cr3", stem := "b", suffix := ".cr3",
         modDate := some "2023_02_02_020202" },
       { name := "c.jpg", stem := "c", suffix := ".jpg", modDate := none }]
      [("a.jpg", "2024_01_15_143052")] ["out"] false).1,
   (C9_plan_moves_partition
      [{ name := "a.jpg", stem := "a", suffix := ".jpg", modDate := none },
       { name := "b.cr3", stem := "b", suffix := ".cr3",
         modDate := some "2023_02_02_020202" },
       { name := "c.jpg", stem := "c", suffix := ".jpg", modDate := none }]
      [("a.jpg", "2024_01_15_143052")] ["out"] false).2.2
     { path := { name := "a.jpg", stem := "a", suffix := ".jpg", modDate := none },
       datetime_str := "2024_01_15_143052",
       new_filename := "2024_01_15_143052_a.jpg",
       dest_folder := ["out", "2024_01_15", "!orig"] }
     (by decide)⟩

/-- C3 witness: the exiftool unknown placeholder is rejected, and a
timestamp written with Arabic-Indic digits — which Python `\d` matches —
is returned unchanged, both by the characterization theorem. -/
theorem C3_witness :
    validate_date (some "-") = none ∧
    validate_date (some "٢٠٢٤_٠١_١٥_١٤٣٠٥٢") = some "٢٠٢٤_٠١_١٥_١٤٣٠٥٢" := by
  constructor
  · have h := C3_validate_date_shape "-"
    rcases h.1 with hc | hc
    · rcases h.2.1.mp hc with hd | hd
      · exact absurd hd (by decide)
      · exact absurd hd.2 (by decide)
    · exact hc
  · exact (C3_validate_date_shape "٢٠٢٤_٠١_١٥_١٤٣٠٥٢").2.1.mpr (Or.inl (by decide))

/-- C5 witness: an output two levels inside the input is rejected, by the
characterization theorem. -/
theorem C5_witness : validate_paths ["a"] ["a", "b", "c"] = false :=
  (C5_validate_paths.1 ["a"] ["a", "b", "c"]).mpr
    ⟨["b", "c"], by decide, by decide⟩

/-- C6 witness: an interrupted run with pending errors still exits 130. -/
theorem C6_witness : mainExit true true true ⟨5, 2, true⟩ = 130 :=
  (C6_main_exit_status true true true ⟨5, 2, true⟩).2.1.mpr ⟨rfl, rfl, rfl, rfl⟩

/-! ### C8 — file discovery -/

theorem foldl_collect_names :
    ∀ (entries : List DirEntry) (acc : List String),
      entries.foldl (fun acc e => if supportedEntry e then acc ++ [e.name] else acc) acc
        = acc ++ (entries.filter supportedEntry).map (fun e => e.name) := by
  intro entries
  induction entries with
  | nil => intro acc; simp
  | cons e es ih =>
    intro acc
    rw [List.foldl_cons]
    by_cases h : supportedEntry e = true
    · rw [if_pos h, ih, List.filter_cons_of_pos h, List.map_cons]
      simp
    · rw [if_neg (by simp [h]), ih, List.filter_cons_of_neg (by simp [h])]

/-- C8: discovery over a readable directory returns exactly the direct
children that are regular files whose lower-cased extension belongs to
the supported set (as a permutation of that filtered listing), sorted by
case-folded name; a permission or I/O error yields the empty list.  The
model receives the direct-children listing only, so no recursion into
subdirectories is possible by construction. -/
theorem find_files_perm (entries : List DirEntry) :
    (find_files (ScanResult.ok entries)).Perm
      ((entries.filter supportedEntry).map (fun e => e.name)) := by
  show (List.insertionSort caseKeyLe
      (entries.foldl (fun acc e => if supportedEntry e then acc ++ [e.name] else acc) [])).Perm _
  rw [foldl_collect_names entries []]
  simpa using List.perm_insertionSort caseKeyLe
    ((entries.filter supportedEntry).map (fun e => e.name))

theorem C8_find_files (entries : List DirEntry) :
    find_files ScanResult.err = [] ∧
    (find_files (ScanResult.ok entries)).Perm
      ((entries.filter supportedEntry).map (fun e => e.name)) ∧
    (find_files (ScanResult.ok entries)).Pairwise caseKeyLe ∧
    ∀ x ∈ find_files (ScanResult.ok entries),
      ∃ e ∈ entries, e.isFile = true ∧
        ALL_EXTENSIONS.contains (pyLower (splitextExt e.name)) = true ∧ x = e.name := by
  haveI htot : IsTotal String caseKeyLe := ⟨fun a b => listLe_total _ _⟩
  haveI htrans : IsTrans String caseKeyLe := ⟨fun a b c => listLe_trans _ _ _⟩
  have hperm := find_files_perm entries
  refine ⟨rfl, hperm, ?_, ?_⟩
  · unfold find_files
    exact List.sorted_insertionSort caseKeyLe _
  · intro x hx
    have hx' := hperm.mem_iff.mp hx
    rcases List.mem_map.mp hx' with ⟨e, he, hname⟩
    rcases List.mem_filter.mp he with ⟨hmem, hsup⟩
    unfold supportedEntry at hsup
    rw [Bool.and_eq_true] at hsup
    exact ⟨e, hmem, hsup.1, hsup.2, hname.symm⟩

set_option maxRecDepth 16384 in
/-- C8 witness: members of a concrete discovery result arise from
supported regular-file entries, by the characterization theorem. -/
theorem C8_witness :
    ∃ e ∈ [({ name := "b.JPG", isFile := true } : DirEntry),
           { name := "A.jpg", isFile := true },
           { name := "sub", isFile := false },
           { name := "x.txt", isFile := true }],
      e.isFile = true ∧
      ALL_EXTENSIONS.contains (pyLower (splitextExt e.name)) = true ∧ "A.jpg" = e.name :=
  (C8_find_files
    [{ name := "b.JPG", isFile := true }, { name := "A.jpg", isFile := true },
     { name := "sub", isFile := false }, { name := "x.txt", isFile := true }]).2.2.2
    "A.jpg" (by decide)

/-! ### C1 — unique filename allocation -/

theorem splitStemSuffix_append (base : String) :
    (splitStemSuffix base).1 ++ (splitStemSuffix base).2 = base := by
  unfold splitStemSuffix
  cases h : rfindDotIdx base.data with
  | none =>
    apply string_eq_of_data
    simp [String.data_append]
  | some i =>
    by_cases hi : 0 < i
    · simp only [hi, if_pos]
      apply string_eq_of_data
      simp only [String.data_append]
      exact List.take_append_drop i base.data
    · simp only [hi, if_neg, if_false]
      apply string_eq_of_data
      simp [String.data_append]

theorem probeName_injective (stem suffix : String) :
    Function.Injective (probeName stem suffix) := by
  intro a b h
  apply repr_injective
  apply string_eq_of_data
  have hd := congrArg String.data h
  simp only [probeName, String.data_append, List.append_assoc] at hd
  have h1 := List.append_cancel_left hd
  have h2 := List.append_cancel_left h1
  exact List.append_cancel_right h2

theorem probeName_ne_append (stem suffix : String) (k : Nat) :
    probeName stem suffix k ≠ stem ++ suffix := by
  intro h
  have hd := congrArg String.data h
  simp only [probeName, String.data_append, List.append_assoc] at hd
  have hlen := congrArg List.length hd
  simp only [List.length_append] at hlen
  have h1 : ("_" : String).data.length = 1 := rfl
  have h2 : 1 ≤ (Nat.repr k).data.length := by
    cases hr : (Nat.repr k).data with
    | nil => exact absurd hr (repr_data_ne_nil k)
    | cons a l => simp
  omega

theorem probe_reaches (E A : List String) (stem suffix : String) :
    ∀ (fuel counter m : Nat), counter ≤ m → m < counter + fuel + 1 →
      (∀ j, counter ≤ j → j < m →
        (probeName stem suffix j ∈ E ∨ probeName stem suffix j ∈ A)) →
      (probeName stem suffix m ∉ E ∧ probeName stem suffix m ∉ A) →
      probe E A stem suffix fuel counter = probeName stem suffix m := by
  intro fuel
  induction fuel with
  | zero =>
    intro counter m h1 h2 _ _
    have hm : m = counter := by omega
    subst hm
    rfl
  | succ fuel ih =>
    intro counter m h1 h2 h3 h4
    simp only [probe]
    by_cases hcm : counter = m
    · subst hcm
      rw [if_neg]
      intro hc
      rcases hc with hc | hc
      · exact h4.1 hc
      · exact h4.2 hc
    · have hlt : counter < m := by omega
      rw [if_pos (h3 counter (Nat.le_refl _) hlt)]
      exact ih (counter + 1) m (by omega) (by omega)
        (fun j hj1 hj2 => h3 j (by omega) hj2) h4

theorem probe_exhausted (E A : List String) (stem suffix : String) :
    ∀ (fuel counter : Nat),
      (∀ j, counter ≤ j → j < counter + fuel →
        (probeName stem suffix j ∈ E ∨ probeName stem suffix j ∈ A)) →
      probe E A stem suffix fuel counter = probeName stem suffix (counter + fuel) := by
  intro fuel
  induction fuel with
  | zero => intro counter _; rfl
  | succ fuel ih =>
    intro counter h
    simp only [probe]
    rw [if_pos (h counter (Nat.le_refl _) (by omega))]
    rw [ih (counter + 1) (fun j hj1 hj2 => h j (by omega) (by omega))]
    congr 1
    omega

theorem mem_seq_iff (stem suffix base : String) (k : Nat) (hk : 1 ≤ k) (x : String) :
    x ∈ base :: (List.range' 2 (k - 1)).map (probeName stem suffix) ↔
      (x = base ∨ ∃ j, 2 ≤ j ∧ j < k + 1 ∧ x = probeName stem suffix j) := by
  rw [List.mem_cons]
  constructor
  · rintro (h | h)
    · exact Or.inl h
    · rcases List.mem_map.mp h with ⟨j, hj, rfl⟩
      rcases List.mem_range'_1.mp hj with ⟨hj1, hj2⟩
      exact Or.inr ⟨j, hj1, by omega, rfl⟩
  · rintro (h | ⟨j, hj1, hj2, rfl⟩)
    · exact Or.inl h
    · refine Or.inr (List.mem_map.mpr ⟨j, List.mem_range'_1.mpr ⟨hj1, by omega⟩, rfl⟩)

theorem lookupFolder_nil (f : FolderPath) : lookupFolder [] f = none := rfl

theorem lookupFolder_self (f : FolderPath) (v : List String)
    (rest : List (FolderPath × List String)) :
    lookupFolder ((f, v) :: rest) f = some v := by
  simp [lookupFolder, List.find?]

theorem addAllocated_self (f : FolderPath) (v : List String) (n : String) :
    addAllocated [(f, v)] f n = [(f, n :: v)] := by
  simp [addAllocated]

theorem generate_first (folder : FolderPath) (base : String) :
    generate (fun _ => []) emptyGen folder base
      = (base, ⟨[(folder, [])], [(folder, [base])]⟩) := by
  unfold generate getExisting getAllocated emptyGen
  simp only [lookupFolder_nil]
  rw [if_pos ⟨List.not_mem_nil base, List.not_mem_nil base⟩]
  simp [addAllocated]

theorem generate_next (folder : FolderPath) (base : String) (R : List String)
    (hbase : base ∈ R) :
    generate (fun _ => []) ⟨[(folder, [])], [(folder, R)]⟩ folder base
      = (probe [] R (splitStemSuffix base).1 (splitStemSuffix base).2 99998 2,
         ⟨[(folder, [])],
          [(folder,
            probe [] R (splitStemSuffix base).1 (splitStemSuffix base).2 99998 2 :: R)]⟩) := by
  unfold generate getExisting getAllocated
  simp only [lookupFolder_self]
  rw [if_neg (fun hc => hc.2 hbase)]
  rcases hsplit : splitStemSuffix base with ⟨stem, suffix⟩
  simp [addAllocated, hsplit]

theorem allocN_succ (disk : FolderPath → List String) (folder : FolderPath)
    (base : String) (n : Nat) :
    allocN disk folder base (n + 1)
      = ((allocN disk folder base n).1
          ++ [(generate disk (allocN disk folder base n).2 folder base).1],
         (generate disk (allocN disk folder base n).2 folder base).2) := by
  simp only [allocN]

theorem allocN_seq (folder : FolderPath) (base : String) :
    ∀ k, 1 ≤ k → k ≤ 100000 →
      allocN (fun _ => []) folder base k
        = (base :: (List.range' 2 (k - 1)).map
              (probeName (splitStemSuffix base).1 (splitStemSuffix base).2),
           ⟨[(folder, [])],
            [(folder, (base :: (List.range' 2 (k - 1)).map
                (probeName (splitStemSuffix base).1 (splitStemSuffix base).2)).reverse)]⟩) := by
  intro k
  induction k with
  | zero => intro h1 _; omega
  | succ k ih =>
    intro _ h2
    by_cases hk : k = 0
    · subst hk
      show allocN (fun _ => []) folder base 1 = _
      have h0 : allocN (fun _ => ([] : List String)) folder base 0 = ([], emptyGen) := rfl
      rw [allocN_succ, h0]
      simp only [generate_first]
      simp
    · have hk1 : 1 ≤ k := by omega
      have hrec := ih hk1 (by omega)
      have hsub : k - 1 + 1 = k := by omega
      -- names for the sequence produced after k allocations
      set T := probeName (splitStemSuffix base).1 (splitStemSuffix base).2 with hT
      set seqK := base :: (List.range' 2 (k - 1)).map T with hseqK
      have hbase : base ∈ seqK.reverse :=
        List.mem_reverse.mpr (List.mem_cons_self _ _)
      have hmem : ∀ x, x ∈ seqK.reverse ↔
          (x = base ∨ ∃ j, 2 ≤ j ∧ j < k + 1 ∧ x = T j) := by
        intro x
        rw [List.mem_reverse, hseqK]
        exact mem_seq_iff _ _ base k hk1 x
      have hprobe : probe [] seqK.reverse (splitStemSuffix base).1
          (splitStemSuffix base).2 99998 2 = T (k + 1) := by
        apply probe_reaches
        · omega
        · omega
        · intro j hj1 hj2
          exact Or.inr ((hmem (T j)).mpr (Or.inr ⟨j, hj1, hj2, rfl⟩))
        · refine ⟨List.not_mem_nil _, ?_⟩
          intro hin
          rcases (hmem (T (k + 1))).mp hin with h | ⟨j, hj1, hj2, hj3⟩
          · exact probeName_ne_append _ _ (k + 1) (h.trans (splitStemSuffix_append base).symm)
          · have := probeName_injective _ _ hj3
            omega
      simp only [allocN]
      rw [hrec]
      show (seqK ++ [(generate (fun _ => []) ⟨[(folder, [])], [(folder, seqK.reverse)]⟩
          folder base).1],
        (generate (fun _ => []) ⟨[(folder, [])], [(folder, seqK.reverse)]⟩ folder base).2) = _
      rw [generate_next folder base seqK.reverse hbase]
      simp only [hprobe]
      have hseq : seqK ++ [T (k + 1)]
          = base :: (List.range' 2 (k + 1 - 1)).map T := by
        rw [hseqK]
        have : List.range' 2 (k + 1 - 1) = List.range' 2 (k - 1) ++ [k + 1] := by
          have h1 : k + 1 - 1 = (k - 1) + 1 := by omega
          rw [h1, List.range'_concat]
          congr 2
          omega
        rw [this, List.map_append, List.cons_append]
        rfl
      rw [Prod.mk.injEq]
      constructor
      · exact hseq
      · rw [UniqueFilenameGenerator.mk.injEq]
        constructor
        · rfl
        · rw [← hseq, List.reverse_append]
          rfl

/-- C1 counterexample: allocating the same base name 100001 times against
an initially empty folder does produce a repeat — the allocator probes
suffixes only up to `_99999`, and once they are exhausted the unchecked
ceiling fallback name is returned again — so the claimed no-repeat
sequence property fails for N = 100001. -/
theorem C1_counterexample :
    ¬ (allocN (fun _ => []) ["d"] "photo.jpg" 100001).1.Nodup := by
  have hrec := allocN_seq ["d"] "photo.jpg" 100000 (by omega) (by omega)
  set T := probeName (splitStemSuffix "photo.jpg").1 (splitStemSuffix "photo.jpg").2 with hT
  set seqK := "photo.jpg" :: (List.range' 2 (100000 - 1)).map T with hseqK
  have hbase : "photo.jpg" ∈ seqK.reverse :=
    List.mem_reverse.mpr (List.mem_cons_self _ _)
  have hmem : ∀ x, x ∈ seqK.reverse ↔
      (x = "photo.jpg" ∨ ∃ j, 2 ≤ j ∧ j < 100001 ∧ x = T j) := by
    intro x
    rw [List.mem_reverse, hseqK]
    exact mem_seq_iff _ _ "photo.jpg" 100000 (by omega) x
  have hprobe : probe [] seqK.reverse (splitStemSuffix "photo.jpg").1
      (splitStemSuffix "photo.jpg").2 99998 2 = T 100000 := by
    have h := probe_exhausted [] seqK.reverse (splitStemSuffix "photo.jpg").1
      (splitStemSuffix "photo.jpg").2 99998 2
      (fun j hj1 hj2 => Or.inr ((hmem (T j)).mpr (Or.inr ⟨j, hj1, by omega, rfl⟩)))
    rw [h]
  have hstep : (allocN (fun _ => []) ["d"] "photo.jpg" 100001).1
      = seqK ++ [T 100000] := by
    show (allocN (fun _ => []) ["d"] "photo.jpg" (100000 + 1)).1 = _
    rw [allocN_succ, hrec]
    show (seqK ++ [(generate (fun _ => []) ⟨[(["d"], [])], [(["d"], seqK.reverse)]⟩
        ["d"] "photo.jpg").1]) = _
    rw [generate_next ["d"] "photo.jpg" seqK.reverse hbase]
    simp only [hprobe]
  rw [hstep]
  intro hnodup
  rcases List.nodup_append.mp hnodup with ⟨_, _, hdisj⟩
  have hin : T 100000 ∈ seqK := by
    rw [hseqK]
    exact List.mem_cons_of_mem _
      (List.mem_map.mpr ⟨100000, List.mem_range'_1.mpr ⟨by omega, by omega⟩, rfl⟩)
  exact hdisj hin (List.mem_singleton.mpr rfl)

/-- C1 (amended): allocating the same base name N times against an
initially empty folder yields exactly the sequence `name`, `name_2`, …,
`name_N` (suffix inserted before the extension) with no repeats, for
every N up to 100000 — one past the documented probe ceiling of 99999,
beyond which the unchecked fallback name repeats — and allocation
consults pre-existing disk files: with `photo.jpg` and `photo_2.jpg`
already on disk, allocating `photo.jpg` yields `photo_3.jpg`. -/
theorem C1_allocator_sequence (folder : FolderPath) (base : String) (N : Nat)
    (h1 : 1 ≤ N) (h2 : N ≤ 100000) :
    (allocN (fun _ => []) folder base N).1
      = base :: (List.range' 2 (N - 1)).map
          (probeName (splitStemSuffix base).1 (splitStemSuffix base).2) ∧
    (allocN (fun _ => []) folder base N).1.Nodup ∧
    (generate (fun _ => ["photo.jpg", "photo_2.jpg"]) emptyGen folder "photo.jpg").1
      = "photo_3.jpg" := by
  have hseq := allocN_seq folder base N h1 h2
  have houts : (allocN (fun _ => []) folder base N).1
      = base :: (List.range' 2 (N - 1)).map
          (probeName (splitStemSuffix base).1 (splitStemSuffix base).2) := by
    rw [hseq]
  refine ⟨houts, ?_, ?_⟩
  · rw [houts]
    rw [List.nodup_cons]
    constructor
    · intro hin
      rcases List.mem_map.mp hin with ⟨j, _, hj⟩
      exact probeName_ne_append _ _ j (hj.trans (splitStemSuffix_append base).symm)
    · exact (List.nodup_range' _ _).map (probeName_injective _ _)
  · rfl

/-- C1 witness: three allocations of `photo.jpg` against an empty folder
yield `photo.jpg`, `photo_2.jpg`, `photo_3.jpg` without repeats. -/
theorem C1_witness :
    (allocN (fun _ => []) ["d"] "photo.jpg" 3).1
      = ["photo.jpg", "photo_2.jpg", "photo_3.jpg"] ∧
    (allocN (fun _ => []) ["d"] "photo.jpg" 3).1.Nodup := by
  have h := C1_allocator_sequence ["d"] "photo.jpg" 3 (by decide) (by decide)
  exact ⟨h.1.trans (by decide), h.2.1⟩

/-! ### C4 — dry-run: supporting lemmas about the filesystem model -/

theorem addDir_self (dirs : List FolderPath) (d : FolderPath) : d ∈ addDir dirs d := by
  unfold addDir
  by_cases h : d ∈ dirs
  · simpa [h]
  · simp [h]

theorem addDir_mono {dirs : List FolderPath} {x : FolderPath} (d : FolderPath)
    (h : x ∈ dirs) : x ∈ addDir dirs d := by
  unfold addDir
  by_cases hd : d ∈ dirs
  · simpa [hd]
  · simp [hd, List.mem_append]
    exact Or.inl h

theorem foldl_addDir_mono : ∀ (l : List FolderPath) (dirs : List FolderPath)
    (x : FolderPath), x ∈ dirs → x ∈ l.foldl addDir dirs := by
  intro l
  induction l with
  | nil => intro dirs x h; simpa using h
  | cons a as ih =>
    intro dirs x h
    rw [List.foldl_cons]
    exact ih _ x (addDir_mono a h)

theorem foldl_addDir_mem : ∀ (l : List FolderPath) (dirs : List FolderPath)
    (x : FolderPath), x ∈ l → x ∈ l.foldl addDir dirs := by
  intro l
  induction l with
  | nil => intro dirs x h; simp at h
  | cons a as ih =>
    intro dirs x h
    rw [List.foldl_cons]
    rcases List.mem_cons.mp h with rfl | h
    · exact foldl_addDir_mono as _ x (addDir_self dirs x)
    · exact ih _ x h

theorem mem_own_inits {α : Type} : ∀ (l : List α), l ∈ l.inits := by
  intro l
  induction l with
  | nil => simp [List.inits]
  | cons a as ih =>
    rw [List.inits]
    exact List.mem_cons_of_mem _ (List.mem_map.mpr ⟨as, ih, rfl⟩)

theorem mkdirParents_self (dirs : List FolderPath) (p : FolderPath) :
    p ∈ mkdirParents dirs p :=
  foldl_addDir_mem _ dirs p (mem_own_inits p)

theorem mkdirParents_mono {dirs : List FolderPath} {x : FolderPath} (p : FolderPath)
    (h : x ∈ dirs) : x ∈ mkdirParents dirs p :=
  foldl_addDir_mono _ dirs x h

theorem ensure_folders_files : ∀ (dfs : List String) (fs : FS) (out : FolderPath),
    (ensure_folders_exist fs out dfs).files = fs.files := by
  intro dfs
  induction dfs with
  | nil => intro fs out; rfl
  | cons d rest ih =>
    intro fs out
    unfold ensure_folders_exist
    rw [List.foldl_cons]
    exact ih _ out

theorem ensure_folders_dirs_mono : ∀ (dfs : List String) (fs : FS) (out : FolderPath)
    (x : FolderPath), x ∈ fs.dirs → x ∈ (ensure_folders_exist fs out dfs).dirs := by
  intro dfs
  induction dfs with
  | nil => intro fs out x h; simpa using h
  | cons d rest ih =>
    intro fs out x h
    unfold ensure_folders_exist
    rw [List.foldl_cons]
    apply ih
    exact addDir_mono _ (addDir_mono _ (mkdirParents_mono _ h))

theorem ensure_folders_mem : ∀ (dfs : List String) (fs : FS) (out : FolderPath)
    (d : String), d ∈ dfs →
    out ++ [d] ∈ (ensure_folders_exist fs out dfs).dirs ∧
    (out ++ [d]) ++ ["!orig"] ∈ (ensure_folders_exist fs out dfs).dirs := by
  intro dfs
  induction dfs with
  | nil => intro fs out d h; simp at h
  | cons d0 rest ih =>
    intro fs out d h
    rcases List.mem_cons.mp h with rfl | h
    · unfold ensure_folders_exist
      rw [List.foldl_cons]
      constructor
      · apply ensure_folders_dirs_mono
        exact addDir_mono _ (addDir_mono _ (mkdirParents_self _ _))
      · apply ensure_folders_dirs_mono
        exact addDir_self _ _
    · unfold ensure_folders_exist
      rw [List.foldl_cons]
      exact ih _ out d h

theorem diskFileNames_only_files (fs : FS) (dir : FolderPath) :
    diskFileNames fs dir
      = ((fs.files.filter
          (fun p => decide (p.length = dir.length + 1) && p.dropLast == dir)).map
            lastName) := by
  unfold diskFileNames scandirEntries
  rw [List.filter_append, List.filter_map, List.filter_map]
  simp [Function.comp, List.map_map]

theorem diskFileNames_congr {fs fs' : FS} (h : fs.files = fs'.files) :
    diskFileNames fs = diskFileNames fs' := by
  funext dir
  rw [diskFileNames_only_files, diskFileNames_only_files, h]

theorem execMoves_all_ok : ∀ (ts : List MoveTask) (fs : FS),
    (∀ t ∈ ts, t.source ∈ fs.files) →
    (∀ t ∈ ts, t.dest.dropLast ∈ fs.dirs) →
    (ts.map (fun t => t.source)).Nodup →
    (execMoves fs ts).2.1 = ts.length ∧ (execMoves fs ts).2.2 = 0 := by
  intro ts
  induction ts with
  | nil => intro fs _ _ _; exact ⟨rfl, rfl⟩
  | cons t rest ih =>
    intro fs hsrc hdir hnd
    have hout : fsRenameOutcome fs t.source t.dest = OsOutcome.ok := by
      unfold fsRenameOutcome
      rw [if_pos ⟨hsrc t (List.mem_cons_self _ _), hdir t (List.mem_cons_self _ _)⟩]
    simp only [execMoves, hout]
    have hsucc : (move_single_file t.source t.dest t.is_duplicate
        OsOutcome.ok OsOutcome.ok).success = true := rfl
    rw [if_pos hsucc]
    rw [List.map_cons] at hnd
    have hnd' := List.nodup_cons.mp hnd
    have hrec := ih (applyMove fs t.source t.dest)
      (fun u hu => by
        have hu1 : u.source ∈ fs.files := hsrc u (List.mem_cons_of_mem _ hu)
        have hne : u.source ≠ t.source := by
          intro he
          exact hnd'.1 (he ▸ List.mem_map.mpr ⟨u, hu, rfl⟩)
        unfold applyMove
        simp only
        exact List.mem_append_left _ ((List.mem_erase_of_ne hne).mpr hu1))
      (fun u hu => hdir u (List.mem_cons_of_mem _ hu))
      hnd'.2
    simp only
    exact ⟨by rw [hrec.1, List.length_cons], hrec.2⟩

theorem buildTasks_sources (disk : FolderPath → List String) (input : FolderPath) :
    ∀ (infos : List FileInfo) (g : UniqueFilenameGenerator),
      (buildTasks disk input g infos).map (fun t => t.source)
        = infos.map (fun i => input ++ [i.path.name]) := by
  intro infos
  induction infos with
  | nil => intro g; rfl
  | cons i rest ih =>
    intro g
    simp only [buildTasks, List.map_cons]
    rw [ih]

theorem buildTasks_dest (disk : FolderPath → List String) (input : FolderPath) :
    ∀ (infos : List FileInfo) (g : UniqueFilenameGenerator),
      ∀ t ∈ buildTasks disk input g infos,
        ∃ i ∈ infos, t.source = input ++ [i.path.name] ∧
          t.dest.dropLast = i.dest_folder := by
  intro infos
  induction infos with
  | nil => intro g t ht; simp [buildTasks] at ht
  | cons i rest ih =>
    intro g t ht
    simp only [buildTasks] at ht
    rcases List.mem_cons.mp ht with rfl | ht
    · exact ⟨i, List.mem_cons_self _ _, rfl, List.dropLast_concat⟩
    · rcases ih _ t ht with ⟨j, hj, h1, h2⟩
      exact ⟨j, List.mem_cons_of_mem _ hj, h1, h2⟩

theorem buildTasks_length (disk : FolderPath → List String) (input : FolderPath) :
    ∀ (infos : List FileInfo) (g : UniqueFilenameGenerator),
      (buildTasks disk input g infos).length = infos.length := by
  intro infos
  induction infos with
  | nil => intro g; rfl
  | cons i rest ih =>
    intro g
    simp only [buildTasks, List.length_cons]
    rw [ih]

theorem plan_paths_sublist (out : List String) (flag : Bool)
    (fd : List (String × String)) :
    ∀ (files : List SrcFile) (acc : List FileInfo × List String × Nat × Nat),
      ((files.foldl (planStep out flag fd) acc).1.map (fun i => i.path)).Sublist
        ((acc.1.map (fun i => i.path)) ++ files) := by
  intro files
  induction files with
  | nil => intro acc; simpa using List.Sublist.refl _
  | cons f fs ih =>
    intro acc
    rw [List.foldl_cons]
    have hrec := ih (planStep out flag fd acc f)
    rcases planStep_cases out flag fd acc f with ⟨dt, _, hinfos, _, _⟩ | ⟨hinfos, _, _⟩
    · rw [hinfos] at hrec
      have hmap : ((acc.1 ++ [(planBody out flag dt f).1]).map (fun i => i.path))
          = acc.1.map (fun i => i.path) ++ [f] := by
        rw [List.map_append, List.map_singleton, (planBody_fields out flag dt f).2.1]
      rw [hmap, List.append_assoc] at hrec
      simpa using hrec
    · rw [hinfos] at hrec
      exact hrec.trans (List.Sublist.append_left (List.sublist_cons_self f fs) _)

theorem setAdd_self (l : List String) (x : String) : x ∈ setAdd l x := by
  unfold setAdd
  by_cases h : x ∈ l
  · simpa [h]
  · simp [h]

theorem setAdd_mono {l : List String} {x : String} (y : String) (h : x ∈ l) :
    x ∈ setAdd l y := by
  unfold setAdd
  by_cases hy : y ∈ l
  · simpa [hy]
  · simp [hy]
    exact Or.inl h

theorem planStep_folders_mono (out : List String) (flag : Bool)
    (fd : List (String × String)) (acc : List FileInfo × List String × Nat × Nat)
    (f : SrcFile) (x : String) (h : x ∈ acc.2.1) :
    x ∈ (planStep out flag fd acc f).2.1 := by
  obtain ⟨infos, folders, fb, sk⟩ := acc
  by_cases h1 : pyTruthy (dictGet fd f.name) = true
  · simp only [planStep, h1, if_true]
    exact setAdd_mono _ h
  · by_cases h2 : pyTruthy f.modDate = true
    · simp only [planStep, h1, h2, if_false, if_true]
      exact setAdd_mono _ h
    · simpa [planStep, h1, h2] using h

theorem planBody_dest_folder (out : List String) (flag : Bool) (dt : String)
    (f : SrcFile) :
    (planBody out flag dt f).1.dest_folder = out ++ [(planBody out flag dt f).2] ∨
    (planBody out flag dt f).1.dest_folder
      = (out ++ [(planBody out flag dt f).2]) ++ ["!orig"] := by
  unfold planBody
  by_cases h : JPEG_EXTENSIONS.contains (pyLower f.suffix) = true <;>
    cases flag <;> simp [h] <;>
    exact Or.symm (Decidable.em _)

theorem planStep_added (out : List String) (flag : Bool)
    (fd : List (String × String)) (acc : List FileInfo × List String × Nat × Nat)
    (f : SrcFile) :
    (planStep out flag fd acc f).1 = acc.1 ∨
    ∃ dt, (planStep out flag fd acc f).1 = acc.1 ++ [(planBody out flag dt f).1] ∧
      (planBody out flag dt f).2 ∈ (planStep out flag fd acc f).2.1 := by
  obtain ⟨infos, folders, fb, sk⟩ := acc
  by_cases h1 : pyTruthy (dictGet fd f.name) = true
  · right
    refine ⟨(dictGet fd f.name).getD "", ?_, ?_⟩
    · simp [planStep, h1]
    · simp only [planStep, h1, if_true]
      exact setAdd_self _ _
  · by_cases h2 : pyTruthy f.modDate = true
    · right
      refine ⟨f.modDate.getD "", ?_, ?_⟩
      · simp [planStep, h1, h2]
      · simp only [planStep, h1, h2, if_false, if_true]
        exact setAdd_self _ _
    · left
      simp [planStep, h1, h2]

theorem plan_dest_mem (out : List String) (flag : Bool)
    (fd : List (String × String)) :
    ∀ (files : List SrcFile) (acc : List FileInfo × List String × Nat × Nat),
      (∀ i ∈ acc.1, ∃ d ∈ acc.2.1,
        i.dest_folder = out ++ [d] ∨ i.dest_folder = (out ++ [d]) ++ ["!orig"]) →
      ∀ i ∈ (files.foldl (planStep out flag fd) acc).1,
        ∃ d ∈ (files.foldl (planStep out flag fd) acc).2.1,
          i.dest_folder = out ++ [d] ∨ i.dest_folder = (out ++ [d]) ++ ["!orig"] := by
  intro files
  induction files with
  | nil => intro acc h; simpa using h
  | cons f fs ih =>
    intro acc hacc
    rw [List.foldl_cons]
    apply ih
    intro i hi
    rcases planStep_added out flag fd acc f with h | ⟨dt, hinfos, hdmem⟩
    · rw [h] at hi
      rcases hacc i hi with ⟨d, hd, hcase⟩
      exact ⟨d, planStep_folders_mono out flag fd acc f d hd, hcase⟩
    · rw [hinfos] at hi
      rcases List.mem_append.mp hi with hi | hi
      · rcases hacc i hi with ⟨d, hd, hcase⟩
        exact ⟨d, planStep_folders_mono out flag fd acc f d hd, hcase⟩
      · rw [List.mem_singleton.mp hi]
        exact ⟨(planBody out flag dt f).2, hdmem, planBody_dest_folder out flag dt f⟩

theorem child_reconstruct {input p : FolderPath}
    (h : (decide (p.length = input.length + 1) && p.dropLast == input) = true) :
    input ++ [lastName p] = p := by
  rw [Bool.and_eq_true, decide_eq_true_eq, beq_iff_eq] at h
  obtain ⟨hlen, hdrop⟩ := h
  have hne : p ≠ [] := by
    intro h0
    subst h0
    simp at hlen
  have hlast : lastName p = p.getLast hne := by
    unfold lastName
    rw [List.getLastD_eq_getLast?, List.getLast?_eq_getLast p hne]
    rfl
  rw [hlast, ← hdrop]
  exact List.dropLast_append_getLast hne

theorem find_files_names (fs : FS) (input : FolderPath) (hnd : fs.files.Nodup) :
    (∀ n ∈ find_files (ScanResult.ok (scandirEntries fs input)),
      input ++ [n] ∈ fs.files) ∧
    (find_files (ScanResult.ok (scandirEntries fs input))).Nodup := by
  have hperm := find_files_perm (scandirEntries fs input)
  have hsplit : (scandirEntries fs input).filter supportedEntry
      = ((fs.files.filter (fun p =>
            decide (p.length = input.length + 1) && p.dropLast == input)).map
          (fun p => ({ name := lastName p, isFile := true } : DirEntry))).filter
          supportedEntry := by
    unfold scandirEntries
    rw [List.filter_append]
    have hdirs : ((fs.dirs.filter (fun p =>
        decide (p.length = input.length + 1) && p.dropLast == input)).map
          (fun p => ({ name := lastName p, isFile := false } : DirEntry))).filter
          supportedEntry = [] := by
      rw [List.filter_map]
      have : (supportedEntry ∘ fun p : FolderPath =>
          ({ name := lastName p, isFile := false } : DirEntry)) = fun _ => false := by
        funext p
        rfl
      rw [this]
      simp
    rw [hdirs, List.append_nil]
  have hsub : ((scandirEntries fs input).filter supportedEntry).map (fun e => e.name)
      |>.Sublist ((fs.files.filter (fun p =>
          decide (p.length = input.length + 1) && p.dropLast == input)).map lastName) := by
    rw [hsplit]
    have h1 := List.filter_sublist (p := supportedEntry)
      ((fs.files.filter (fun p =>
        decide (p.length = input.length + 1) && p.dropLast == input)).map
        (fun p => ({ name := lastName p, isFile := true } : DirEntry)))
    have h2 := h1.map (fun e : DirEntry => e.name)
    rw [List.map_map] at h2
    exact h2
  constructor
  · intro n hn
    have hn' := hperm.mem_iff.mp hn
    have hn2 : n ∈ (fs.files.filter (fun p =>
        decide (p.length = input.length + 1) && p.dropLast == input)).map lastName :=
      hsub.mem hn'
    rcases List.mem_map.mp hn2 with ⟨p, hp, rfl⟩
    rcases List.mem_filter.mp hp with ⟨hpmem, hq⟩
    rw [child_reconstruct hq]
    exact hpmem
  · rw [hperm.nodup_iff]
    apply hsub.nodup
    apply List.Nodup.map_on
    · intro x hx y hy hxy
      rcases List.mem_filter.mp hx with ⟨_, hqx⟩
      rcases List.mem_filter.mp hy with ⟨_, hqy⟩
      rw [← child_reconstruct hqx, ← child_reconstruct hqy, hxy]
    · exact hnd.filter _

theorem process_files_dry_vs_real (fs : FS) (exif : List (String × String))
    (modDates : String → Option String) (input output : FolderPath) (flag : Bool)
    (hnd : fs.files.Nodup) :
    (process_files fs exif modDates input output flag true).1 = fs ∧
    (process_files fs exif modDates input output flag true).2.1
      = (process_files fs exif modDates input output flag false).2.1 ∧
    (process_files fs exif modDates input output flag true).2.2 = 0 ∧
    (process_files fs exif modDates input output flag false).2.2 = 0 := by
  by_cases hn : find_files (ScanResult.ok (scandirEntries fs input)) = []
  · refine ⟨?_, ?_, ?_, ?_⟩ <;> simp [process_files, hn]
  · by_cases hi : (plan_moves
        ((find_files (ScanResult.ok (scandirEntries fs input))).map
          (mkSrcFile modDates)) exif output flag).1 = []
    · refine ⟨?_, ?_, ?_, ?_⟩ <;> simp [process_files, hn, hi]
    · have hdry : process_files fs exif modDates input output flag true
          = (fs, (buildTasks (diskFileNames fs) input emptyGen
              (plan_moves ((find_files (ScanResult.ok (scandirEntries fs input))).map
                (mkSrcFile modDates)) exif output flag).1).length, 0) := by
        simp only [process_files]
        rw [if_neg hn, if_neg hi]
        simp
      have hreal : process_files fs exif modDates input output flag false
          = execMoves
              (ensure_folders_exist fs output
                (plan_moves ((find_files (ScanResult.ok (scandirEntries fs input))).map
                  (mkSrcFile modDates)) exif output flag).2.1)
              (buildTasks
                (diskFileNames (ensure_folders_exist fs output
                  (plan_moves ((find_files (ScanResult.ok (scandirEntries fs input))).map
                    (mkSrcFile modDates)) exif output flag).2.1))
                input emptyGen
                (plan_moves ((find_files (ScanResult.ok (scandirEntries fs input))).map
                  (mkSrcFile modDates)) exif output flag).1) := by
        simp only [process_files]
        rw [if_neg hn, if_neg hi]
        simp
      set names := find_files (ScanResult.ok (scandirEntries fs input)) with hnames
      set srcFiles := names.map (mkSrcFile modDates) with hsrcFiles
      set infos := (plan_moves srcFiles exif output flag).1 with hinfos
      set dfs := (plan_moves srcFiles exif output flag).2.1 with hdfs
      set fs1 := ensure_folders_exist fs output dfs with hfs1
      have hfiles1 : fs1.files = fs.files := ensure_folders_files dfs fs output
      have hdisk : diskFileNames fs1 = diskFileNames fs := diskFileNames_congr hfiles1
      rw [hdisk] at hreal
      set tasks := buildTasks (diskFileNames fs) input emptyGen infos with htasks
      have hnamesfacts := find_files_names fs input hnd
      have hpaths : (infos.map (fun i => i.path)).Sublist srcFiles := by
        have h := plan_paths_sublist output flag exif srcFiles ([], [], 0, 0)
        simpa [hinfos, plan_moves] using h
      have hnamemem : ∀ i ∈ infos, i.path.name ∈ names := by
        intro i hi2
        have h1 : i.path ∈ srcFiles := hpaths.mem (List.mem_map.mpr ⟨i, hi2, rfl⟩)
        rcases List.mem_map.mp h1 with ⟨n, hn2, hmk⟩
        rw [← hmk]
        simpa [mkSrcFile] using hn2
      have hsrcmem : ∀ t ∈ tasks, t.source ∈ fs1.files := by
        intro t ht
        rcases buildTasks_dest (diskFileNames fs) input infos emptyGen t ht
          with ⟨i, hi2, hsrc, _⟩
        rw [hsrc, hfiles1]
        exact hnamesfacts.1 _ (hnamemem i hi2)
      have hdestmem : ∀ t ∈ tasks, t.dest.dropLast ∈ fs1.dirs := by
        intro t ht
        rcases buildTasks_dest (diskFileNames fs) input infos emptyGen t ht
          with ⟨i, hi2, _, hdest⟩
        rw [hdest]
        have hd : ∃ d ∈ dfs,
            i.dest_folder = output ++ [d] ∨
            i.dest_folder = (output ++ [d]) ++ ["!orig"] := by
          have h := plan_dest_mem output flag exif srcFiles ([], [], 0, 0)
            (by intro j hj; simp at hj) i (by simpa [hinfos, plan_moves] using hi2)
          simpa [hdfs, plan_moves] using h
        rcases hd with ⟨d, hdmem, hcase | hcase⟩
        · rw [hcase]
          exact (ensure_folders_mem dfs fs output d hdmem).1
        · rw [hcase]
          exact (ensure_folders_mem dfs fs output d hdmem).2
      have hndsrc : (tasks.map (fun t => t.source)).Nodup := by
        rw [htasks, buildTasks_sources]
        have h1 : infos.map (fun i => input ++ [i.path.name])
            = ((infos.map (fun i => i.path)).map (fun p => p.name)).map
                (fun n => input ++ [n]) := by
          rw [List.map_map, List.map_map]
          rfl
        rw [h1]
        apply List.Nodup.map
        · intro a b hab
          have h2 := List.append_cancel_left hab
          injection h2
        · have h2 : ((infos.map (fun i => i.path)).map (fun p : SrcFile => p.name)).Sublist
              (srcFiles.map (fun p : SrcFile => p.name)) := hpaths.map _
          have h3 : srcFiles.map (fun p : SrcFile => p.name) = names := by
            rw [hsrcFiles, List.map_map]
            have : ((fun p : SrcFile => p.name) ∘ mkSrcFile modDates) = id := by
              funext n
              rfl
            rw [this, List.map_id]
          rw [h3] at h2
          exact h2.nodup hnamesfacts.2
      have hexec := execMoves_all_ok tasks fs1 hsrcmem hdestmem hndsrc
      refine ⟨?_, ?_, ?_, ?_⟩
      · rw [hdry]
      · rw [hdry, hreal]
        exact hexec.1.symm
      · rw [hdry]
      · rw [hreal]
        exact hexec.2

/-- C4 counterexample: a dry run with a not-yet-existing output directory
does mutate the filesystem — `main` creates the output folder
unconditionally, before and regardless of dry-run mode — refuting the
claim that a dry run performs zero filesystem mutation including no
creation of the output folder itself. -/
theorem C4_counterexample :
    (mainRun ⟨[["in", "photo.jpg"]], [["in"]]⟩ [("photo.jpg", "2024_01_15_143052")]
        (fun _ => none) ["in"] ["out"] false true).1
      ≠ (⟨[["in", "photo.jpg"]], [["in"]]⟩ : FS) := by
  decide

/-- C4 (amended): a dry run performs no filesystem mutation beyond the
unconditional creation of the output directory itself, which `main` does
in every mode before processing: the source files are exactly those of
the initial state, no date folders or subfolders are created by the dry
run, and the reported success count equals the success count of the
corresponding real run, which (absent external filesystem failures)
completes with zero errors, as does the dry run. -/
theorem C4_dry_run_frame (fs : FS) (exif : List (String × String))
    (modDates : String → Option String) (input output : FolderPath) (flag : Bool)
    (hnd : fs.files.Nodup) :
    (mainRun fs exif modDates input output flag true).1.files = fs.files ∧
    (mainRun fs exif modDates input output flag true).1.dirs
      = mkdirParents fs.dirs output ∧
    (mainRun fs exif modDates input output flag true).2.1
      = (mainRun fs exif modDates input output flag false).2.1 ∧
    (mainRun fs exif modDates input output flag true).2.2 = 0 ∧
    (mainRun fs exif modDates input output flag false).2.2 = 0 := by
  have h := process_files_dry_vs_real ⟨fs.files, mkdirParents fs.dirs output⟩
    exif modDates input output flag hnd
  refine ⟨?_, ?_, h.2.1, h.2.2.1, h.2.2.2⟩
  · show ((process_files ⟨fs.files, mkdirParents fs.dirs output⟩
        exif modDates input output flag true).1).files = fs.files
    rw [h.1]
  · show ((process_files ⟨fs.files, mkdirParents fs.dirs output⟩
        exif modDates input output flag true).1).dirs = mkdirParents fs.dirs output
    rw [h.1]

/-- C4 witness: on a concrete one-photo filesystem, the dry run and the
real run report the same success count and the dry run leaves the source
file in place. -/
theorem C4_witness :
    (mainRun ⟨[["in", "photo.jpg"]], [["in"], ["out"]]⟩
        [("photo.jpg", "2024_01_15_143052")] (fun _ => none)
        ["in"] ["out"] false true).2.1
      = (mainRun ⟨[["in", "photo.jpg"]], [["in"], ["out"]]⟩
          [("photo.jpg", "2024_01_15_143052")] (fun _ => none)
          ["in"] ["out"] false false).2.1 ∧
    (mainRun ⟨[["in", "photo.jpg"]], [["in"], ["out"]]⟩
        [("photo.jpg", "2024_01_15_143052")] (fun _ => none)
        ["in"] ["out"] false true).1.files = [["in", "photo.jpg"]] :=
  ⟨(C4_dry_run_frame ⟨[["in", "photo.jpg"]], [["in"], ["out"]]⟩
      [("photo.jpg", "2024_01_15_143052")] (fun _ => none)
      ["in"] ["out"] false (by decide)).2.2.1,
   (C4_dry_run_frame ⟨[["in", "photo.jpg"]], [["in"], ["out"]]⟩
      [("photo.jpg", "2024_01_15_143052")] (fun _ => none)
      ["in"] ["out"] false (by decide)).1⟩

end CanonImages
